import Mathlib

/-!
Verification of the ly-mcp repository: a thin MCP tool adapter over the
Legislative Yuan open-data REST API.  The Python source is shallowly
embedded: JSON payloads are an inductive `Json` type, Python exceptions
are an explicit `PyExn` type, a fallible upstream HTTP call is an
`Except PyExn Json` outcome handed to each function as an input, and the
request models / tool endpoints become total Lean functions over these.
-/

/-- JSON values as parsed by `resp.json()` / serialized by `json.dumps`.
Numbers are restricted to integers (the payloads under study carry only
integral numbers). An object is an ordered association list. -/
inductive Json where
  | null
  | bool (b : Bool)
  | num (n : Int)
  | str (s : String)
  | arr (items : List Json)
  | obj (fields : List (String × Json))

/-- Key lookup in a JSON object (`d[k]` / `k in d`); `none` on non-objects. -/
def Json.objGet (j : Json) (key : String) : Option Json :=
  match j with
  | .obj fields => fields.lookup key
  | _ => none

/-- `isinstance(x, dict)`. -/
def Json.isObj : Json → Bool
  | .obj _ => true
  | _ => false

/-- `isinstance(x, list)`. -/
def Json.isArr : Json → Bool
  | .arr _ => true
  | _ => false

/-- A run of `n` spaces, as produced by `json.dumps(..., indent=2)`. -/
def spaces (n : Nat) : String :=
  String.mk (List.replicate n ' ')

/-- Lower-case hexadecimal digit. -/
def hexDigit (n : Nat) : Char :=
  if n < 10 then Char.ofNat (48 + n) else Char.ofNat (87 + n)

/-- Four-digit hexadecimal rendering used by JSON `\uXXXX` escapes. -/
def hex4 (n : Nat) : String :=
  String.mk [hexDigit (n / 4096 % 16), hexDigit (n / 256 % 16),
             hexDigit (n / 16 % 16), hexDigit (n % 16)]

/-- Escaping of one character inside a JSON string literal
(`json.dumps` with `ensure_ascii=False`). -/
def escapeChar (c : Char) : String :=
  if c = '"' then "\\\""
  else if c = '\\' then "\\\\"
  else if c = '\n' then "\\n"
  else if c = '\t' then "\\t"
  else if c = '\r' then "\\r"
  else if c.toNat = 8 then "\\b"
  else if c.toNat = 12 then "\\f"
  else if c.toNat < 32 then "\\u" ++ hex4 c.toNat
  else String.singleton c

/-- Escape every character of a string for a JSON string literal. -/
def escapeString (s : String) : String :=
  s.data.foldr (fun c acc => escapeChar c ++ acc) ""

/-- A JSON-quoted string. -/
def quoteJson (s : String) : String :=
  "\"" ++ escapeString s ++ "\""

mutual

/-- `json.dumps(_, ensure_ascii=False, indent=2)` at a given indent level. -/
def Json.dump : Nat → Json → String
  | _, .null => "null"
  | _, .bool true => "true"
  | _, .bool false => "false"
  | _, .num n => toString n
  | _, .str s => quoteJson s
  | _, .arr [] => "[]"
  | lvl, .arr (x :: xs) =>
      "[\n" ++ spaces (2 * (lvl + 1)) ++ Json.dump (lvl + 1) x ++
        Json.dumpArrTail (lvl + 1) xs ++ "\n" ++ spaces (2 * lvl) ++ "]"
  | _, .obj [] => "\x7b\x7d"
  | lvl, .obj ((k, v) :: fs) =>
      "\x7b\n" ++ spaces (2 * (lvl + 1)) ++ quoteJson k ++ ": " ++ Json.dump (lvl + 1) v ++
        Json.dumpObjTail (lvl + 1) fs ++ "\n" ++ spaces (2 * lvl) ++ "\x7d"

/-- Remaining array items, each preceded by `",\n"` and ind-level spaces. -/
def Json.dumpArrTail : Nat → List Json → String
  | _, [] => ""
  | lvl, x :: xs => ",\n" ++ spaces (2 * lvl) ++ Json.dump lvl x ++ Json.dumpArrTail lvl xs

/-- Remaining object fields, each preceded by `",\n"` and indent-level spaces. -/
def Json.dumpObjTail : Nat → List (String × Json) → String
  | _, [] => ""
  | lvl, (k, v) :: fs =>
      ",\n" ++ spaces (2 * lvl) ++ quoteJson k ++ ": " ++ Json.dump lvl v ++
        Json.dumpObjTail lvl fs

end

/-- `json.dumps(x, ensure_ascii=False, indent=2)`. -/
def jsonDumps (j : Json) : String :=
  Json.dump 0 j

/-- The Python exceptions that can surface while building or performing an
upstream request: the `httpx` exception classes distinguished by the code's
`except` clauses, plus `RuntimeError` (the wrapper raised by the request
models) and a catch-all for any other `Exception`.  Each carries its
`str(e)` rendering. -/
inductive PyExn where
  | httpStatusError (code : Nat) (msg : String)
  | timeoutException (msg : String)
  | connectError (msg : String)
  | runtimeError (msg : String)
  | otherExn (msg : String)

/-- `str(e)` for an exception value. -/
def PyExn.str : PyExn → String
  | .httpStatusError _ m => m
  | .timeoutException m => m
  | .connectError m => m
  | .runtimeError m => m
  | .otherExn m => m

/-- One optional query-parameter entry: the empty mapping when the value is
absent, a single key/value pair otherwise.  This is how
`model_dump(exclude_none=True, by_alias=True)` treats a `None`-defaulted
field. -/
def optEntry (key : String) (v : Option Json) : List (String × Json) :=
  match v with
  | none => []
  | some x => [(key, x)]

theorem lookup_append (l₁ l₂ : List (String × Json)) (k : String) :
    (l₁ ++ l₂).lookup k = ((l₁.lookup k).orElse fun _ => l₂.lookup k) := by
  induction l₁ with
  | nil => simp [List.lookup]
  | cons p l ih =>
      obtain ⟨k', v⟩ := p
      by_cases h : k = k'
      · subst h; simp [List.lookup]
      · simp [List.lookup, beq_false_of_ne h, ih]

theorem lookup_optEntry (k k' : String) (v : Option Json) :
    (optEntry k' v).lookup k = if k' = k then v else none := by
  cases v with
  | none => simp [optEntry, List.lookup]
  | some x =>
      by_cases h : k' = k
      · subst h; simp [optEntry, List.lookup]
      · simp [optEntry, List.lookup, beq_false_of_ne (Ne.symm h), h]

/-- Sequence of optional query entries: each present value contributes its
key/value pair, in declaration order — the shape of a
`model_dump(exclude_none=True, by_alias=True)` result. -/
def optChain : List (String × Option Json) → List (String × Json)
  | [] => []
  | (k, v) :: rest => optEntry k v ++ optChain rest

theorem orElse_none_right (x : Option Json) : (x.orElse fun _ => none) = x := by
  cases x <;> rfl

theorem lookup_optChain (entries : List (String × Option Json)) (k : String) :
    (optChain entries).lookup k =
      entries.foldr (fun e acc => if e.1 = k then e.2.orElse fun _ => acc else acc)
        none := by
  induction entries with
  | nil => rfl
  | cons e rest ih =>
      obtain ⟨k', v⟩ := e
      by_cases h : k' = k
      · subst h
        cases v <;> simp [optChain, optEntry, List.lookup, ih, Option.orElse]
      · cases v <;>
          simp [optChain, optEntry, List.lookup, h, beq_false_of_ne (Ne.symm h), ih]

/-- Modelled from the spec: the repository's `lymcp/translate.py` module (the
Field Translation Table that `api.py` imports) is not among the provided
source files.  Its entries are reconstructed from the spec's Translation
Table description ("mapping from logical parameter name to the upstream
API's localized query-parameter name", injective) together with the
per-field localized descriptions present in `server.py`, `types.py` and
`models.py` (e.g. `term` ↦ 屆, `session` ↦ 會期).  Per the spec, unknown
keys are a programming error, never hit at runtime. -/
def translateField (key : String) : String :=
  match key with
  | "term" => "屆"
  | "session" => "會期"
  | "bill_flow_status" => "議案流程.狀態"
  | "bill_type" => "議案類別"
  | "proposer" => "提案人"
  | "co_proposer" => "連署人"
  | "law_number" => "法律編號"
  | "bill_status" => "議案狀態"
  | "meeting_code" => "會議代碼"
  | "proposal_source" => "提案來源"
  | "bill_number" => "議案編號"
  | "proposal_number" => "提案編號"
  | "reference_number" => "字號"
  | "article_number" => "法條編號"
  | "proposal_date" => "提案日期"
  | "meeting_type" => "會議種類"
  | "date" => "日期"
  | "committee_type" => "委員會類別"
  | "comt_cd" => "委員會代號"
  | "gazette_id" => "公報編號"
  | "volume" => "卷"
  | "meeting_date" => "會議日期"
  | "interpellation_member" => "質詢委員"
  | "bill_no" => "議案編號"
  | "member_name" => "委員名稱"
  | "committee_code" => "委員會代碼"
  | "meeting_code_data" => "會議資料.會議代碼"
  | "video_type" => "影片種類"
  | k => k

theorem translateField_vals :
    translateField "term" = "屆" ∧ translateField "session" = "會期" ∧
    translateField "bill_flow_status" = "議案流程.狀態" ∧
    translateField "bill_type" = "議案類別" ∧ translateField "proposer" = "提案人" ∧
    translateField "co_proposer" = "連署人" ∧ translateField "law_number" = "法律編號" ∧
    translateField "bill_status" = "議案狀態" ∧ translateField "meeting_code" = "會議代碼" ∧
    translateField "proposal_source" = "提案來源" ∧ translateField "bill_number" = "議案編號" ∧
    translateField "proposal_number" = "提案編號" ∧ translateField "reference_number" = "字號" ∧
    translateField "article_number" = "法條編號" ∧ translateField "proposal_date" = "提案日期" ∧
    translateField "meeting_type" = "會議種類" ∧ translateField "date" = "日期" ∧
    translateField "committee_type" = "委員會類別" ∧ translateField "comt_cd" = "委員會代號" ∧
    translateField "gazette_id" = "公報編號" ∧ translateField "volume" = "卷" ∧
    translateField "meeting_date" = "會議日期" ∧
    translateField "interpellation_member" = "質詢委員" ∧
    translateField "member_name" = "委員名稱" ∧ translateField "committee_code" = "委員會代碼" ∧
    translateField "meeting_code_data" = "會議資料.會議代碼" ∧
    translateField "video_type" = "影片種類" := by
  refine ⟨rfl, rfl, rfl, rfl, rfl, rfl, rfl, rfl, rfl, rfl, rfl, rfl, rfl, rfl,
    rfl, rfl, rfl, rfl, rfl, rfl, rfl, rfl, rfl, rfl, rfl, rfl, rfl⟩

namespace Api

/-- `api.py ListBillRequest`: the `/bills` listing request model. -/
structure ListBillRequest where
  term : Option Int := none
  session : Option Int := none
  bill_flow_status : Option String := none
  bill_type : Option String := none
  proposer : Option String := none
  co_proposer : Option String := none
  law_number : Option String := none
  bill_status : Option String := none
  meeting_code : Option String := none
  proposal_source : Option String := none
  bill_number : Option String := none
  proposal_number : Option String := none
  reference_number : Option String := none
  article_number : Option String := none
  proposal_date : Option String := none
  page : Int := 1
  limit : Int := 20
  output_fields : List String := []

/-- `self.model_dump(exclude_none=True, by_alias=True)` as performed by
`ListBillRequest.do`: fields in declaration order, `None`-valued fields
omitted, present fields renamed through their serialization aliases.
`page`, `limit` and `output_fields` carry no alias and can never be `None`
(`output_fields` defaults to the empty list), so they always appear under
their own names. -/
def ListBillRequest.buildParams (r : ListBillRequest) : List (String × Json) :=
  optEntry (translateField "term") (r.term.map Json.num) ++
  optEntry (translateField "session") (r.session.map Json.num) ++
  optEntry (translateField "bill_flow_status") (r.bill_flow_status.map Json.str) ++
  optEntry (translateField "bill_type") (r.bill_type.map Json.str) ++
  optEntry (translateField "proposer") (r.proposer.map Json.str) ++
  optEntry (translateField "co_proposer") (r.co_proposer.map Json.str) ++
  optEntry (translateField "law_number") (r.law_number.map Json.str) ++
  optEntry (translateField "bill_status") (r.bill_status.map Json.str) ++
  optEntry (translateField "meeting_code") (r.meeting_code.map Json.str) ++
  optEntry (translateField "proposal_source") (r.proposal_source.map Json.str) ++
  optEntry (translateField "bill_number") (r.bill_number.map Json.str) ++
  optEntry (translateField "proposal_number") (r.proposal_number.map Json.str) ++
  optEntry (translateField "reference_number") (r.reference_number.map Json.str) ++
  optEntry (translateField "article_number") (r.article_number.map Json.str) ++
  optEntry (translateField "proposal_date") (r.proposal_date.map Json.str) ++
  [("page", Json.num r.page), ("limit", Json.num r.limit),
   ("output_fields", Json.arr (r.output_fields.map Json.str))]

/-- `api.py ListCommitteesRequest`: the `/committees` listing request model. -/
structure ListCommitteesRequest where
  committee_type : Option String := none
  comt_cd : Option String := none
  page : Int := 1
  limit : Int := 20
  output_fields : List String := []

/-- Query parameters built by `ListCommitteesRequest.do`. -/
def ListCommitteesRequest.buildParams (r : ListCommitteesRequest) :
    List (String × Json) :=
  optEntry (translateField "committee_type") (r.committee_type.map Json.str) ++
  optEntry (translateField "comt_cd") (r.comt_cd.map Json.str) ++
  [("page", Json.num r.page), ("limit", Json.num r.limit),
   ("output_fields", Json.arr (r.output_fields.map Json.str))]

/-- `api.py ListGazettesRequest`: the `/gazettes` listing request model. -/
structure ListGazettesRequest where
  gazette_id : Option String := none
  volume : Option Int := none
  page : Int := 1
  limit : Int := 20
  output_fields : List String := []

/-- Query parameters built by `ListGazettesRequest.do`. -/
def ListGazettesRequest.buildParams (r : ListGazettesRequest) :
    List (String × Json) :=
  optEntry (translateField "gazette_id") (r.gazette_id.map Json.str) ++
  optEntry (translateField "volume") (r.volume.map Json.num) ++
  [("page", Json.num r.page), ("limit", Json.num r.limit),
   ("output_fields", Json.arr (r.output_fields.map Json.str))]

/-- `api.py ListGazetteAgendasRequest`: the `/gazette_agendas` listing
request model. -/
structure ListGazetteAgendasRequest where
  gazette_id : Option String := none
  volume : Option Int := none
  term : Option Int := none
  meeting_date : Option String := none
  page : Int := 1
  limit : Int := 20
  output_fields : List String := []

/-- Query parameters built by `ListGazetteAgendasRequest.do`. -/
def ListGazetteAgendasRequest.buildParams (r : ListGazetteAgendasRequest) :
    List (String × Json) :=
  optEntry (translateField "gazette_id") (r.gazette_id.map Json.str) ++
  optEntry (translateField "volume") (r.volume.map Json.num) ++
  optEntry (translateField "term") (r.term.map Json.num) ++
  optEntry (translateField "meeting_date") (r.meeting_date.map Json.str) ++
  [("page", Json.num r.page), ("limit", Json.num r.limit),
   ("output_fields", Json.arr (r.output_fields.map Json.str))]

/-- `api.py ListInterpellationsRequest`: the `/interpellations` listing
request model. -/
structure ListInterpellationsRequest where
  interpellation_member : Option String := none
  term : Option Int := none
  session : Option Int := none
  meeting_code : Option String := none
  page : Int := 1
  limit : Int := 20
  output_fields : List String := []

/-- Query parameters built by `ListInterpellationsRequest.do`. -/
def ListInterpellationsRequest.buildParams (r : ListInterpellationsRequest) :
    List (String × Json) :=
  optEntry (translateField "interpellation_member") (r.interpellation_member.map Json.str) ++
  optEntry (translateField "term") (r.term.map Json.num) ++
  optEntry (translateField "session") (r.session.map Json.num) ++
  optEntry (translateField "meeting_code") (r.meeting_code.map Json.str) ++
  [("page", Json.num r.page), ("limit", Json.num r.limit),
   ("output_fields", Json.arr (r.output_fields.map Json.str))]

/-- Modelled from the spec: `server.py` imports `ListIvodsRequest` from
`lymcp.api`, but the class body is not among the provided source files.
Per the spec, every listing operation declares its optional filters with
translated aliases, attaches pagination fields `page` (default 1) and
`limit` (default 20), and drops absent parameters; the filter set follows
the `list_ivods` tool signature in `server.py`. -/
structure ListIvodsRequest where
  term : Option Int := none
  session : Option Int := none
  meeting_code : Option String := none
  member_name : Option String := none
  committee_code : Option Int := none
  meeting_code_data : Option String := none
  date : Option String := none
  video_type : Option String := none
  page : Int := 1
  limit : Int := 20
  output_fields : List String := []

/-- Modelled from the spec: query parameters built by `ListIvodsRequest.do`
(drop absent fields, rename through the Translation Table, keep
pagination). -/
def ListIvodsRequest.buildParams (r : ListIvodsRequest) :
    List (String × Json) :=
  optEntry (translateField "term") (r.term.map Json.num) ++
  optEntry (translateField "session") (r.session.map Json.num) ++
  optEntry (translateField "meeting_code") (r.meeting_code.map Json.str) ++
  optEntry (translateField "member_name") (r.member_name.map Json.str) ++
  optEntry (translateField "committee_code") (r.committee_code.map Json.num) ++
  optEntry (translateField "meeting_code_data") (r.meeting_code_data.map Json.str) ++
  optEntry (translateField "date") (r.date.map Json.str) ++
  optEntry (translateField "video_type") (r.video_type.map Json.str) ++
  [("page", Json.num r.page), ("limit", Json.num r.limit),
   ("output_fields", Json.arr (r.output_fields.map Json.str))]

/-- `api.py GetBillMeetsRequest`: the `/bills/{id}/meets` listing request
model; `bill_no` goes into the URL path and is excluded from the query. -/
structure GetBillMeetsRequest where
  bill_no : String
  term : Option Int := none
  session : Option Int := none
  meeting_type : Option String := none
  date : Option String := none
  page : Int := 1
  limit : Int := 20

/-- `self.model_dump(exclude_none=True, by_alias=True, exclude={"bill_no"})`
as performed by `GetBillMeetsRequest.do`. -/
def GetBillMeetsRequest.buildParams (r : GetBillMeetsRequest) :
    List (String × Json) :=
  optEntry (translateField "term") (r.term.map Json.num) ++
  optEntry (translateField "session") (r.session.map Json.num) ++
  optEntry (translateField "meeting_type") (r.meeting_type.map Json.str) ++
  optEntry (translateField "date") (r.date.map Json.str) ++
  [("page", Json.num r.page), ("limit", Json.num r.limit)]

/-- `api.py GetBillRelatedBillsRequest`: the `/bills/{id}/related_bills`
listing request model. -/
structure GetBillRelatedBillsRequest where
  bill_no : String
  page : Int := 1
  limit : Int := 20

/-- Query parameters built by `GetBillRelatedBillsRequest.do`
(only pagination, `bill_no` excluded). -/
def GetBillRelatedBillsRequest.buildParams (r : GetBillRelatedBillsRequest) :
    List (String × Json) :=
  [("page", Json.num r.page), ("limit", Json.num r.limit)]

end Api

namespace Models

/-- `models.py Bill` (pydantic model, `populate_by_name=True`): every field
optional, exposed under a localized alias. `proposer`/`cosigner` admit a
string or a list of strings. -/
structure Bill where
  bill_no : Option String := none
  title : Option String := none
  category : Option String := none
  term : Option Int := none
  session : Option Int := none
  proposer : Option (String ⊕ List String) := none
  cosigner : Option (String ⊕ List String) := none
  proposal_date : Option String := none
  proposal_source : Option String := none
  status : Option String := none
  latest_progress_date : Option String := none

/-- `models.py RelatedBill`. -/
structure RelatedBill where
  relation_type : Option String := none
  related_bill_no : Option String := none

/-- `models.py Meeting`. -/
structure Meeting where
  meeting_date : Option String := none
  meeting_type : Option String := none
  meeting_name : Option String := none
  agenda_item : Option String := none
  discussion_result : Option String := none

/-- Read one model field from a payload object: with `populate_by_name=True`
pydantic accepts the serialization alias or the field name (the upstream
payloads use the alias). -/
def getAliased (j : Json) (aliasKey fieldName : String) : Option Json :=
  (j.objGet aliasKey).orElse fun _ => j.objGet fieldName

/-- Validate an optional `str` field. -/
def asOptStr : Option Json → Except String (Option String)
  | none => .ok none
  | some .null => .ok none
  | some (.str s) => .ok (some s)
  | some _ => .error "Input should be a valid string"

/-- Validate an optional `int` field. -/
def asOptInt : Option Json → Except String (Option Int)
  | none => .ok none
  | some .null => .ok none
  | some (.num n) => .ok (some n)
  | some _ => .error "Input should be a valid integer"

/-- Validate an optional `str | list[str]` field. -/
def asOptStrOrList : Option Json → Except String (Option (String ⊕ List String))
  | none => .ok none
  | some .null => .ok none
  | some (.str s) => .ok (some (.inl s))
  | some (.arr xs) => do
      let l ← xs.mapM fun j =>
        match j with
        | .str s => Except.ok s
        | _ => Except.error "Input should be a valid string"
      return some (.inr l)
  | some _ => .error "Input should be a valid string or list"

/-- Validate an optional `list[str]` field. -/
def asOptStrList : Option Json → Except String (Option (List String))
  | none => .ok none
  | some .null => .ok none
  | some (.arr xs) => do
      let l ← xs.mapM fun j =>
        match j with
        | .str s => Except.ok s
        | _ => Except.error "Input should be a valid string"
      return some l
  | some _ => .error "Input should be a valid list"

/-- Validate an optional `list[dict]` field; elements are kept as raw JSON
objects. -/
def asOptDictList : Option Json → Except String (Option (List Json))
  | none => .ok none
  | some .null => .ok none
  | some (.arr xs) => do
      let l ← xs.mapM fun j =>
        match j with
        | .obj fields => Except.ok (Json.obj fields)
        | _ => Except.error "Input should be a valid dictionary"
      return some l
  | some _ => .error "Input should be a valid list"

/-- `Bill.model_validate`: requires a dict payload, reads each field through
its alias (or name), coercing nothing. -/
def Bill.validate (j : Json) : Except String Bill :=
  match j with
  | .obj _ => do
      let bill_no ← asOptStr (getAliased j "議案編號" "bill_no")
      let title ← asOptStr (getAliased j "議案名稱" "title")
      let category ← asOptStr (getAliased j "議案類別" "category")
      let term ← asOptInt (getAliased j "屆" "term")
      let session ← asOptInt (getAliased j "會期" "session")
      let proposer ← asOptStrOrList (getAliased j "提案人" "proposer")
      let cosigner ← asOptStrOrList (getAliased j "連署人" "cosigner")
      let proposal_date ← asOptStr (getAliased j "提案日期" "proposal_date")
      let proposal_source ← asOptStr (getAliased j "提案來源" "proposal_source")
      let status ← asOptStr (getAliased j "議案狀態" "status")
      let latest_progress_date ← asOptStr (getAliased j "最新進度日期" "latest_progress_date")
      return { bill_no, title, category, term, session, proposer, cosigner,
               proposal_date, proposal_source, status, latest_progress_date }
  | _ => .error "Input should be a valid dictionary"

/-- `RelatedBill.model_validate`. -/
def RelatedBill.validate (j : Json) : Except String RelatedBill :=
  match j with
  | .obj _ => do
      let relation_type ← asOptStr (getAliased j "關聯類型" "relation_type")
      let related_bill_no ← asOptStr (getAliased j "相關議案編號" "related_bill_no")
      return { relation_type, related_bill_no }
  | _ => .error "Input should be a valid dictionary"

/-- `Meeting.model_validate`. -/
def Meeting.validate (j : Json) : Except String Meeting :=
  match j with
  | .obj _ => do
      let meeting_date ← asOptStr (getAliased j "會議日期" "meeting_date")
      let meeting_type ← asOptStr (getAliased j "會議種類" "meeting_type")
      let meeting_name ← asOptStr (getAliased j "會議名稱" "meeting_name")
      let agenda_item ← asOptStr (getAliased j "議程項目" "agenda_item")
      let discussion_result ← asOptStr (getAliased j "審議結果" "discussion_result")
      return { meeting_date, meeting_type, meeting_name, agenda_item, discussion_result }
  | _ => .error "Input should be a valid dictionary"

/-- JSON rendering of an optional field in `model_dump` (Python `None`
serializes as JSON `null`). -/
def optJson (f : α → Json) : Option α → Json
  | none => Json.null
  | some x => f x

/-- JSON rendering of a `str | list[str]` value. -/
def strOrListJson : String ⊕ List String → Json
  | .inl s => .str s
  | .inr l => .arr (l.map .str)

/-- `Bill.model_dump(by_alias=True)`: every field, under its alias, `None`
included as `null`. -/
def Bill.dump (b : Bill) : Json :=
  .obj [("議案編號", optJson Json.str b.bill_no),
        ("議案名稱", optJson Json.str b.title),
        ("議案類別", optJson Json.str b.category),
        ("屆", optJson Json.num b.term),
        ("會期", optJson Json.num b.session),
        ("提案人", optJson strOrListJson b.proposer),
        ("連署人", optJson strOrListJson b.cosigner),
        ("提案日期", optJson Json.str b.proposal_date),
        ("提案來源", optJson Json.str b.proposal_source),
        ("議案狀態", optJson Json.str b.status),
        ("最新進度日期", optJson Json.str b.latest_progress_date)]

/-- `RelatedBill.model_dump(by_alias=True)`. -/
def RelatedBill.dump (b : RelatedBill) : Json :=
  .obj [("關聯類型", optJson Json.str b.relation_type),
        ("相關議案編號", optJson Json.str b.related_bill_no)]

/-- `Meeting.model_dump(by_alias=True)`. -/
def Meeting.dump (m : Meeting) : Json :=
  .obj [("會議日期", optJson Json.str m.meeting_date),
        ("會議種類", optJson Json.str m.meeting_type),
        ("會議名稱", optJson Json.str m.meeting_name),
        ("議程項目", optJson Json.str m.agenda_item),
        ("審議結果", optJson Json.str m.discussion_result)]

end Models

namespace Models

/-- Left-to-right effectful map over a list, aborting at the first failure
— the behaviour of a Python list comprehension whose element expression
may raise. -/
def mapMExcept (f : α → Except String β) : List α → Except String (List β)
  | [] => .ok []
  | x :: xs =>
      match f x with
      | .error m => .error m
      | .ok y =>
          match mapMExcept f xs with
          | .error m => .error m
          | .ok ys => .ok (y :: ys)

/-- The response normalization performed inline by every listing request in
`models.py`: `data["data"]` when the payload is a dict containing the key
`"data"`; the payload itself when it is a bare list; the empty list
otherwise. -/
def extractResultSet (data : Json) : Json :=
  match data with
  | .obj fields =>
      match fields.lookup "data" with
      | some d => d
      | none => Json.arr []
  | .arr items => .arr items
  | _ => .arr []

/-- Python iteration (`for x in v`) over a JSON value: lists yield their
elements, strings their characters, dicts their keys; other values raise
`TypeError`. -/
def pyIter : Json → Except String (List Json)
  | .arr xs => .ok xs
  | .str s => .ok (s.data.map fun c => .str (String.singleton c))
  | .obj fields => .ok (fields.map fun f => .str f.1)
  | _ => .error "object is not iterable"

/-- `models.py SearchBillsResponse`. -/
structure SearchBillsResponse where
  bills : List Bill := []
  total : Option Int := none
  page : Int
  limit : Int

/-- `models.py BillRelatedBillsResponse`. -/
structure BillRelatedBillsResponse where
  related_bills : List RelatedBill := []
  total : Option Int := none
  page : Int
  limit : Int
  bill_no : String

/-- `models.py BillMeetsResponse`. -/
structure BillMeetsResponse where
  meetings : List Meeting := []
  total : Option Int := none
  page : Int
  limit : Int
  bill_no : String

/-- `models.py SearchBillsRequest`: the legacy `/bills` request model. -/
structure SearchBillsRequest where
  term : Option Int := none
  session : Option Int := none
  bill_category : Option String := none
  proposer : Option String := none
  cosigner : Option String := none
  bill_status : Option String := none
  proposal_source : Option String := none
  bill_no : Option String := none
  proposal_date_start : Option String := none
  proposal_date_end : Option String := none
  page : Int := 1
  limit : Int := 20

/-- `SearchBillsRequest._build_params`: iterate `model_dump()` (no aliases)
in field order and keep every entry whose value is not `None`; `page` and
`limit` are `int`-typed and therefore always kept. -/
def SearchBillsRequest.build_params (r : SearchBillsRequest) :
    List (String × Json) :=
  optEntry "term" (r.term.map Json.num) ++
  optEntry "session" (r.session.map Json.num) ++
  optEntry "bill_category" (r.bill_category.map Json.str) ++
  optEntry "proposer" (r.proposer.map Json.str) ++
  optEntry "cosigner" (r.cosigner.map Json.str) ++
  optEntry "bill_status" (r.bill_status.map Json.str) ++
  optEntry "proposal_source" (r.proposal_source.map Json.str) ++
  optEntry "bill_no" (r.bill_no.map Json.str) ++
  optEntry "proposal_date_start" (r.proposal_date_start.map Json.str) ++
  optEntry "proposal_date_end" (r.proposal_date_end.map Json.str) ++
  [("page", Json.num r.page), ("limit", Json.num r.limit)]

/-- Success-path body shared verbatim by `SearchBillsRequest.do` and
`SearchBillsRequest.async_do` after the HTTP call: normalize the payload,
validate every item as a `Bill`, and report `total` as the number of
parsed bills.  An `.error` models the exception a failing step raises. -/
def SearchBillsRequest.processPayload (r : SearchBillsRequest) (data : Json) :
    Except String SearchBillsResponse :=
  match pyIter (extractResultSet data) with
  | .error m => .error m
  | .ok items =>
      match mapMExcept Bill.validate items with
      | .error m => .error m
      | .ok bills =>
          .ok { bills, total := some (bills.length : Int),
                page := r.page, limit := r.limit }

/-- `SearchBillsRequest.do` / `async_do`: on an `httpx.HTTPStatusError` the
model re-raises an `HTTPStatusError` with message `API 請求失敗：HTTP {code}`
and the same response; any other exception (timeouts and connection errors
included) is wrapped in `RuntimeError("未預期的錯誤：...")`. -/
def SearchBillsRequest.run (r : SearchBillsRequest)
    (outcome : Except PyExn Json) : Except PyExn SearchBillsResponse :=
  match outcome with
  | .error (.httpStatusError code _) =>
      .error (.httpStatusError code ("API 請求失敗：HTTP " ++ toString code))
  | .error e => .error (.runtimeError ("未預期的錯誤：" ++ e.str))
  | .ok data =>
      match r.processPayload data with
      | .ok resp => .ok resp
      | .error m => .error (.runtimeError ("未預期的錯誤：" ++ m))

/-- `models.py BillDetail`: `Bill` plus detail-only fields. -/
structure BillDetail extends Bill where
  law_numbers : Option (List String) := none
  bill_process : Option (List Json) := none
  related_attachments : Option (List Json) := none

/-- `BillDetail.model_validate`. -/
def BillDetail.validate (j : Json) : Except String BillDetail :=
  match j with
  | .obj _ => do
      let base ← Bill.validate j
      let law_numbers ← asOptStrList (getAliased j "法律編號:str" "law_numbers")
      let bill_process ← asOptDictList (getAliased j "議案流程" "bill_process")
      let related_attachments ← asOptDictList (getAliased j "相關附件" "related_attachments")
      return { base with law_numbers, bill_process, related_attachments }
  | _ => .error "Input should be a valid dictionary"

/-- `BillDetail.model_dump(by_alias=True)`. -/
def BillDetail.dump (b : BillDetail) : Json :=
  match Bill.dump b.toBill with
  | .obj fields =>
      .obj (fields ++
        [("法律編號:str", optJson (fun l => Json.arr (l.map Json.str)) b.law_numbers),
         ("議案流程", optJson Json.arr b.bill_process),
         ("相關附件", optJson Json.arr b.related_attachments)])
  | j => j

/-- `models.py GetBillDetailRequest`. -/
structure GetBillDetailRequest where
  bill_no : String

/-- Success-path body of `GetBillDetailRequest.do` / `async_do`: unwrap a
`data`-keyed envelope if present, then validate as `BillDetail`. -/
def GetBillDetailRequest.processPayload (data : Json) :
    Except String BillDetail :=
  let data :=
    match data.objGet "data" with
    | some d => d
    | none => data
  BillDetail.validate data

/-- `GetBillDetailRequest.do` / `async_do` with the same exception
translation as the other request models. -/
def GetBillDetailRequest.run (_r : GetBillDetailRequest)
    (outcome : Except PyExn Json) : Except PyExn BillDetail :=
  match outcome with
  | .error (.httpStatusError code _) =>
      .error (.httpStatusError code ("API 請求失敗：HTTP " ++ toString code))
  | .error e => .error (.runtimeError ("未預期的錯誤：" ++ e.str))
  | .ok data =>
      match GetBillDetailRequest.processPayload data with
      | .ok bd => .ok bd
      | .error m => .error (.runtimeError ("未預期的錯誤：" ++ m))

/-- `models.py GetBillRelatedBillsRequest`. -/
structure GetBillRelatedBillsRequest where
  bill_no : String
  page : Int := 1
  limit : Int := 20

/-- Query parameters sent by `GetBillRelatedBillsRequest` (`/bills/{id}/related`). -/
def GetBillRelatedBillsRequest.build_params (r : GetBillRelatedBillsRequest) :
    List (String × Json) :=
  [("page", Json.num r.page), ("limit", Json.num r.limit)]

/-- Success-path body of `GetBillRelatedBillsRequest.do` / `async_do`. -/
def GetBillRelatedBillsRequest.processPayload (r : GetBillRelatedBillsRequest)
    (data : Json) : Except String BillRelatedBillsResponse :=
  match pyIter (extractResultSet data) with
  | .error m => .error m
  | .ok items =>
      match mapMExcept RelatedBill.validate items with
      | .error m => .error m
      | .ok related_bills =>
          .ok { related_bills, total := some (related_bills.length : Int),
                page := r.page, limit := r.limit, bill_no := r.bill_no }

/-- `GetBillRelatedBillsRequest.do` / `async_do`. -/
def GetBillRelatedBillsRequest.run (r : GetBillRelatedBillsRequest)
    (outcome : Except PyExn Json) : Except PyExn BillRelatedBillsResponse :=
  match outcome with
  | .error (.httpStatusError code _) =>
      .error (.httpStatusError code ("API 請求失敗：HTTP " ++ toString code))
  | .error e => .error (.runtimeError ("未預期的錯誤：" ++ e.str))
  | .ok data =>
      match r.processPayload data with
      | .ok resp => .ok resp
      | .error m => .error (.runtimeError ("未預期的錯誤：" ++ m))

/-- `models.py GetBillMeetsRequest`. -/
structure GetBillMeetsRequest where
  bill_no : String
  term : Option Int := none
  session : Option Int := none
  meeting_type : Option String := none
  date : Option String := none
  page : Int := 1
  limit : Int := 20

/-- Query parameters built inside `GetBillMeetsRequest.do` / `async_do`:
`page`/`limit` first, then each set optional filter, with `term` and
`session` stringified via `str(...)`. -/
def GetBillMeetsRequest.build_params (r : GetBillMeetsRequest) :
    List (String × Json) :=
  [("page", Json.num r.page), ("limit", Json.num r.limit)] ++
  optEntry "term" (r.term.map fun n => Json.str (toString n)) ++
  optEntry "session" (r.session.map fun n => Json.str (toString n)) ++
  optEntry "meeting_type" (r.meeting_type.map Json.str) ++
  optEntry "date" (r.date.map Json.str)

/-- Success-path body of `GetBillMeetsRequest.do` / `async_do`. -/
def GetBillMeetsRequest.processPayload (r : GetBillMeetsRequest)
    (data : Json) : Except String BillMeetsResponse :=
  match pyIter (extractResultSet data) with
  | .error m => .error m
  | .ok items =>
      match mapMExcept Meeting.validate items with
      | .error m => .error m
      | .ok meetings =>
          .ok { meetings, total := some (meetings.length : Int),
                page := r.page, limit := r.limit, bill_no := r.bill_no }

/-- `GetBillMeetsRequest.do` / `async_do`. -/
def GetBillMeetsRequest.run (r : GetBillMeetsRequest)
    (outcome : Except PyExn Json) : Except PyExn BillMeetsResponse :=
  match outcome with
  | .error (.httpStatusError code _) =>
      .error (.httpStatusError code ("API 請求失敗：HTTP " ++ toString code))
  | .error e => .error (.runtimeError ("未預期的錯誤：" ++ e.str))
  | .ok data =>
      match r.processPayload data with
      | .ok resp => .ok resp
      | .error m => .error (.runtimeError ("未預期的錯誤：" ++ m))

end Models

/-- Python `s.startswith(pre)`. -/
def pyStartsWith (s pre : String) : Bool :=
  pre.data.isPrefixOf s.data

/-- Python `s.endswith(suf)`. -/
def pyEndsWith (s suf : String) : Bool :=
  suf.data.isSuffixOf s.data

/-- Split a character list on a separator (every occurrence, keeping empty
groups) — the behaviour of Python `s.split(sep)` for a one-character
separator. -/
def splitChar (sep : Char) : List Char → List (List Char)
  | [] => [[]]
  | c :: rest =>
      match splitChar sep rest with
      | [] => [[]]
      | g :: gs => if c = sep then [] :: g :: gs else (c :: g) :: gs

/-- Python `s.split(sep)` for a one-character separator. -/
def pySplit (s : String) (sep : Char) : List String :=
  (splitChar sep s.data).map String.mk

/-- `models.py APIResponse`: the standard envelope returned by the API
client; `Json.null` stands for Python `None` in `data`. -/
structure APIResponse where
  success : Bool
  message : String
  data : Json := Json.null
  total : Option Int := none
  page : Option Int := none
  limit : Option Int := none

namespace ApiClient

/-- `api_client.py LegislativeYuanAPIClient._handle_http_error`: map an
`httpx.HTTPStatusError` to a failed envelope keyed solely on the status
code.  Only 404, 429 and exactly 500 have dedicated messages; every other
status (501, 502, 503, ... included) falls through to the generic
message. -/
def handle_http_error (status_code : Nat) : APIResponse :=
  let message :=
    if status_code = 404 then
      "查無資料：所查詢的資源不存在 (404)。請檢查參數是否正確。"
    else if status_code = 429 then
      "請求過於頻繁 (429)。請稍後再試。"
    else if status_code = 500 then
      "伺服器內部錯誤 (500)。API 服務可能暫時不可用。"
    else
      "API 請求失敗：HTTP " ++ toString status_code
  { success := false, message, data := Json.null }

/-- The message of the dedicated `httpx.TimeoutException` branch in
`get_bill_related_bills` / `get_bill_meets`. -/
def timeoutMessage : String :=
  "請求逾時。API 服務可能繁忙，請稍後再試。"

/-- The message of the dedicated `httpx.ConnectError` branch in
`get_bill_related_bills` / `get_bill_meets`. -/
def connectErrorMessage : String :=
  "連線錯誤。請檢查網路連線或 API 服務是否正常。"

/-- The `except` chain shared verbatim by `get_bill_related_bills` and
`get_bill_meets`: `HTTPStatusError` goes to `_handle_http_error`,
`TimeoutException` and `ConnectError` get dedicated messages, and any
other exception the generic `未預期的錯誤` message. -/
def exceptChain (e : PyExn) : APIResponse :=
  match e with
  | .httpStatusError code _ => handle_http_error code
  | .timeoutException _ =>
      { success := false, message := timeoutMessage, data := Json.null }
  | .connectError _ =>
      { success := false, message := connectErrorMessage, data := Json.null }
  | .runtimeError m =>
      { success := false, message := "未預期的錯誤：" ++ m, data := Json.null }
  | .otherExn m =>
      { success := false, message := "未預期的錯誤：" ++ m, data := Json.null }

/-- `api_client.py LegislativeYuanAPIClient.search_bills`: run the request
model, convert its structured response to the envelope; any exception is
caught and reported as `API 請求失敗：{e}`. -/
def search_bills (r : Models.SearchBillsRequest)
    (outcome : Except PyExn Json) : APIResponse :=
  match Models.SearchBillsRequest.run r outcome with
  | .ok resp =>
      { success := true, message := "查詢成功",
        data := Json.arr (resp.bills.map Models.Bill.dump),
        total := resp.total, page := some resp.page, limit := some resp.limit }
  | .error e =>
      { success := false, message := "API 請求失敗：" ++ e.str, data := Json.null }

/-- `api_client.py LegislativeYuanAPIClient.get_bill_detail`. -/
def get_bill_detail (bill_no : String)
    (outcome : Except PyExn Json) : APIResponse :=
  match Models.GetBillDetailRequest.run { bill_no } outcome with
  | .ok bill_detail =>
      { success := true, message := "查詢成功",
        data := Models.BillDetail.dump bill_detail }
  | .error e =>
      { success := false, message := "API 請求失敗：" ++ e.str, data := Json.null }

/-- `api_client.py LegislativeYuanAPIClient.get_bill_related_bills`. -/
def get_bill_related_bills (r : Models.GetBillRelatedBillsRequest)
    (outcome : Except PyExn Json) : APIResponse :=
  match Models.GetBillRelatedBillsRequest.run r outcome with
  | .ok resp =>
      { success := true, message := "查詢成功",
        data := Json.arr (resp.related_bills.map Models.RelatedBill.dump),
        total := resp.total, page := some resp.page, limit := some resp.limit }
  | .error e => exceptChain e

/-- `api_client.py LegislativeYuanAPIClient.get_bill_meets`. -/
def get_bill_meets (r : Models.GetBillMeetsRequest)
    (outcome : Except PyExn Json) : APIResponse :=
  match Models.GetBillMeetsRequest.run r outcome with
  | .ok resp =>
      { success := true, message := "查詢成功",
        data := Json.arr (resp.meetings.map Models.Meeting.dump),
        total := resp.total, page := some resp.page, limit := some resp.limit }
  | .error e => exceptChain e

/-- `api_client.py make_api_request`: the backwards-compatibility wrapper
that dispatches on the endpoint string.  `page`/`limit` play the role of
the optional `params` entries the known branches read; the raw HTTP
outcome is the function's input. -/
def make_api_request (endpoint : String)
    (searchReq : Models.SearchBillsRequest := {})
    (page : Int := 1) (limit : Int := 20)
    (outcome : Except PyExn Json) : APIResponse :=
  if endpoint = "/bills" then
    search_bills searchReq outcome
  else if pyStartsWith endpoint "/bills/" && pyEndsWith endpoint "/related" then
    get_bill_related_bills
      { bill_no := ((pySplit endpoint '/').getD 2 ""), page, limit } outcome
  else if pyStartsWith endpoint "/bills/" && pyEndsWith endpoint "/meets" then
    get_bill_meets
      { bill_no := ((pySplit endpoint '/').getD 2 ""), page, limit } outcome
  else if pyStartsWith endpoint "/bills/" && !((endpoint.data.drop 7).contains '/') then
    get_bill_detail ((pySplit endpoint '/').getD 2 "") outcome
  else
    { success := false, message := "不支援的 API endpoint: " ++ endpoint,
      data := Json.null }

end ApiClient

/-- Python `not s.strip()`: true iff every character of the string is
whitespace (`str.strip()` with no argument removes whitespace from both
ends, so the result is empty exactly when nothing else is present); the
ASCII whitespace characters cover the payloads under study. -/
def stripIsEmpty (s : String) : Bool :=
  s.data.all fun c =>
    (c == ' ') || (c == '\t') || (c == '\n') || (c == '\r') ||
      (c.toNat == 11) || (c.toNat == 12)

namespace BillTools

/-- `tools/bill_detail.py get_bill_detail`, end to end through
`api_client.make_api_request` on endpoint `/bills/{bill_no}`. -/
def get_bill_detail (bill_no : String)
    (outcome : Except PyExn Json) : String :=
  let api_response := ApiClient.make_api_request ("/bills/" ++ bill_no) {} 1 20 outcome
  if api_response.success = false then
    "❌ " ++ api_response.message
  else
    "✅ " ++ api_response.message ++ "\n\n" ++ jsonDumps api_response.data

/-- `tools/bill_detail.py get_bill_related_bills`, as a function of the
`APIResponse` that `make_api_request` returned for
`/bills/{bill_no}/related_bills`: failure becomes `❌ {message}`; a
serialized payload longer than 20000 characters is truncated to its first
15000 characters with a truncation notice; otherwise the payload is
returned unmodified after the success marker. -/
def get_bill_related_bills (bill_no : String) (page limit : Int)
    (api_response : APIResponse) : String :=
  if api_response.success = false then
    "❌ " ++ api_response.message
  else
    let data_str := jsonDumps api_response.data
    if 20000 < data_str.length then
      "✅ " ++ api_response.message ++ "\n\n" ++
        "⚠️ 相關議案內容過大，僅顯示部分內容。建議使用分頁參數查詢。\n\n" ++
        data_str.take 15000 ++ "\n\n...(內容過長，已截斷)"
    else
      "✅ " ++ api_response.message ++ "\n\n" ++ data_str

/-- The detailed `⚠️` notice returned by `get_bill_doc_html` when the
document content is `None` or a whitespace-only string. -/
def docHtmlNoContentNotice : String :=
  "⚠️ 該議案暫無文件 HTML 內容。\n\n" ++
  "可能原因：\n" ++
  "1. 該議案尚未產生正式文件\n" ++
  "2. 文件尚未完成數位化\n" ++
  "3. API 資料庫更新延遲\n" ++
  "4. 議案處於早期階段，僅有提案資訊\n\n" ++
  "建議：請稍後再試，或使用 get_bill_detail 取得議案基本資訊。"

/-- The `⚠️` notice returned by `get_bill_doc_html` when the content is an
empty dict or list. -/
def docHtmlEmptyDataNotice : String :=
  "⚠️ 該議案暫無文件 HTML 內容。\n\n" ++
  "該議案目前沒有可用的文件內容，可能正在處理中或尚未上傳至系統。"

/-- `tools/bill_detail.py get_bill_doc_html`, as a function of the
`APIResponse` returned for `/bills/{bill_no}/doc_html`: failures become
`❌ {message}`; a `None` or whitespace-only string payload gets the long
`⚠️` notice, an empty dict/list payload the short `⚠️` notice; everything
else is returned after the success marker. -/
def get_bill_doc_html (bill_no : String) (api_response : APIResponse) : String :=
  if api_response.success = false then
    "❌ " ++ api_response.message
  else if (match api_response.data with
           | .null => true
           | .str s => stripIsEmpty s
           | _ => false) then
    docHtmlNoContentNotice
  else if (match api_response.data with
           | .obj [] => true
           | .arr [] => true
           | _ => false) then
    docHtmlEmptyDataNotice
  else
    "✅ " ++ api_response.message ++ "\n\n" ++ jsonDumps api_response.data

end BillTools

namespace LyTypes

/-- `types.py SearchBillRequest`: serialization aliases as written in the
source — `session` carries alias 屆 and `term` carries alias 會期. -/
structure SearchBillRequest where
  session : Option Int := none
  term : Option Int := none
  bill_flow_status : Option String := none
  bill_type : Option String := none
  proposer : Option String := none
  co_proposer : Option String := none
  law_number : Option String := none
  bill_status : Option String := none
  meeting_code : Option String := none
  proposal_source : Option String := none
  bill_number : Option String := none
  proposal_number : Option String := none
  reference_number : Option String := none
  article_number : Option String := none
  proposal_date : Option String := none
  page : Int := 1
  limit : Int := 20
  output_fields : List String := []

/-- `self.model_dump(exclude_none=True, by_alias=True)` as performed by
`types.py SearchBillRequest.do`. -/
def SearchBillRequest.buildParams (r : SearchBillRequest) :
    List (String × Json) :=
  optEntry "屆" (r.session.map Json.num) ++
  optEntry "會期" (r.term.map Json.num) ++
  optEntry "議案流程.狀態" (r.bill_flow_status.map Json.str) ++
  optEntry "議案類別" (r.bill_type.map Json.str) ++
  optEntry "提案人" (r.proposer.map Json.str) ++
  optEntry "連署人" (r.co_proposer.map Json.str) ++
  optEntry "法律編號" (r.law_number.map Json.str) ++
  optEntry "議案狀態" (r.bill_status.map Json.str) ++
  optEntry "會議代碼" (r.meeting_code.map Json.str) ++
  optEntry "提案來源" (r.proposal_source.map Json.str) ++
  optEntry "議案編號" (r.bill_number.map Json.str) ++
  optEntry "提案編號" (r.proposal_number.map Json.str) ++
  optEntry "字號" (r.reference_number.map Json.str) ++
  optEntry "法條編號" (r.article_number.map Json.str) ++
  optEntry "提案日期" (r.proposal_date.map Json.str) ++
  [("page", Json.num r.page), ("limit", Json.num r.limit),
   ("output_fields", Json.arr (r.output_fields.map Json.str))]

end LyTypes

/-- A query entry guarded by Python truthiness of an optional string
(`if s:` is false for `None` and for the empty string). -/
def strTruthyEntry (key : String) (v : Option String) : List (String × Json) :=
  match v with
  | none => []
  | some s => if s = "" then [] else [(key, Json.str s)]

namespace MT

/-- Query parameters assembled by `mcpservertemplate/server.py
search_bills`: `page`/`limit` first, then each set filter under its
localized key (`term` under 屆, `session` under 會期); string filters are
guarded by truthiness. -/
def search_bills_params (term session : Option Int)
    (bill_category proposer cosigner bill_status proposal_source
      bill_no : Option String) (page limit : Int) : List (String × Json) :=
  [("page", Json.num page), ("limit", Json.num limit)] ++
  optEntry "屆" (term.map Json.num) ++
  optEntry "會期" (session.map Json.num) ++
  strTruthyEntry "議案類別" bill_category ++
  strTruthyEntry "提案人" proposer ++
  strTruthyEntry "連署人" cosigner ++
  strTruthyEntry "議案狀態" bill_status ++
  strTruthyEntry "提案來源" proposal_source ++
  strTruthyEntry "議案編號" bill_no

/-- Query parameters assembled by `mcpservertemplate/server.py
get_bill_meets`. -/
def get_bill_meets_params (term session : Option Int)
    (meeting_type date : Option String) (page limit : Int) :
    List (String × Json) :=
  [("page", Json.num page), ("limit", Json.num limit)] ++
  optEntry "屆" (term.map Json.num) ++
  optEntry "會期" (session.map Json.num) ++
  strTruthyEntry "會議種類" meeting_type ++
  strTruthyEntry "日期" date

end MT

namespace LyServer

/-- `server.py get_stat`: dump the JSON reply; any exception is caught and
rendered as an error-message string. -/
def get_stat (outcome : Except PyExn Json) : String :=
  match outcome with
  | .ok resp => jsonDumps resp
  | .error e => "Failed to get statistics, got: " ++ e.str

/-- `server.py list_bills`. -/
def list_bills (r : Api.ListBillRequest) (outcome : Except PyExn Json) : String :=
  match outcome with
  | .ok resp => jsonDumps resp
  | .error e => "Failed to list bills, got: " ++ e.str

/-- `server.py get_bill`. -/
def get_bill (bill_no : String) (outcome : Except PyExn Json) : String :=
  match outcome with
  | .ok resp => jsonDumps resp
  | .error e => "Failed to get bill detail, got: " ++ e.str

/-- `server.py get_bill_related_bills`. -/
def get_bill_related_bills (bill_no : String) (page limit : Int)
    (outcome : Except PyExn Json) : String :=
  match outcome with
  | .ok resp => jsonDumps resp
  | .error e => "Failed to get bill related bills, got: " ++ e.str

/-- `server.py get_bill_meets`. -/
def get_bill_meets (bill_no : String) (term session : Option Int)
    (meeting_type date : Option String) (page limit : Int)
    (outcome : Except PyExn Json) : String :=
  match outcome with
  | .ok resp => jsonDumps resp
  | .error e => "Failed to get bill meets, got: " ++ e.str

/-- `server.py get_bill_doc_html`. -/
def get_bill_doc_html (bill_no : String) (outcome : Except PyExn Json) : String :=
  match outcome with
  | .ok resp => jsonDumps resp
  | .error e => "Failed to get bill doc html, got: " ++ e.str

end LyServer

theorem append_ne_empty_left (a b : String) (h : a.length ≠ 0) : a ++ b ≠ "" := by
  intro hc
  have hl : (a ++ b).length = ("" : String).length := congrArg String.length hc
  have h0 : ("" : String).length = 0 := rfl
  rw [String.length_append, h0] at hl
  omega

theorem handle_http_error_envelope (code : Nat) :
    (ApiClient.handle_http_error code).success = false ∧
    (ApiClient.handle_http_error code).data = Json.null ∧
    (ApiClient.handle_http_error code).message ≠ "" := by
  refine ⟨rfl, rfl, ?_⟩
  simp only [ApiClient.handle_http_error]
  split_ifs <;> first
    | decide
    | exact append_ne_empty_left _ _ (by decide)

/-- Python truthiness of an optional string, as an optional JSON value
(`if s:` keeps only a non-`None`, non-empty string). -/
def strTruthy (v : Option String) : Option Json :=
  match v with
  | none => none
  | some s => if s = "" then none else some (Json.str s)

theorem strTruthyEntry_eq (k : String) (v : Option String) :
    strTruthyEntry k v = optEntry k (strTruthy v) := by
  cases v with
  | none => rfl
  | some s =>
      by_cases h : s = "" <;> simp [strTruthyEntry, strTruthy, optEntry, h]

theorem listBill_paramsChain (r : Api.ListBillRequest) :
    Api.ListBillRequest.buildParams r = optChain
      [(translateField "term", r.term.map Json.num),
       (translateField "session", r.session.map Json.num),
       (translateField "bill_flow_status", r.bill_flow_status.map Json.str),
       (translateField "bill_type", r.bill_type.map Json.str),
       (translateField "proposer", r.proposer.map Json.str),
       (translateField "co_proposer", r.co_proposer.map Json.str),
       (translateField "law_number", r.law_number.map Json.str),
       (translateField "bill_status", r.bill_status.map Json.str),
       (translateField "meeting_code", r.meeting_code.map Json.str),
       (translateField "proposal_source", r.proposal_source.map Json.str),
       (translateField "bill_number", r.bill_number.map Json.str),
       (translateField "proposal_number", r.proposal_number.map Json.str),
       (translateField "reference_number", r.reference_number.map Json.str),
       (translateField "article_number", r.article_number.map Json.str),
       (translateField "proposal_date", r.proposal_date.map Json.str),
       ("page", some (Json.num r.page)),
       ("limit", some (Json.num r.limit)),
       ("output_fields", some (Json.arr (r.output_fields.map Json.str)))] := by
  simp only [Api.ListBillRequest.buildParams, optChain, optEntry, List.append_assoc,
    List.singleton_append, List.cons_append, List.append_nil, List.nil_append]

theorem listCommittees_paramsChain (r : Api.ListCommitteesRequest) :
    Api.ListCommitteesRequest.buildParams r = optChain
      [(translateField "committee_type", r.committee_type.map Json.str),
       (translateField "comt_cd", r.comt_cd.map Json.str),
       ("page", some (Json.num r.page)),
       ("limit", some (Json.num r.limit)),
       ("output_fields", some (Json.arr (r.output_fields.map Json.str)))] := by
  simp only [Api.ListCommitteesRequest.buildParams, optChain, optEntry, List.append_assoc,
    List.singleton_append, List.cons_append, List.append_nil, List.nil_append]

theorem listGazettes_paramsChain (r : Api.ListGazettesRequest) :
    Api.ListGazettesRequest.buildParams r = optChain
      [(translateField "gazette_id", r.gazette_id.map Json.str),
       (translateField "volume", r.volume.map Json.num),
       ("page", some (Json.num r.page)),
       ("limit", some (Json.num r.limit)),
       ("output_fields", some (Json.arr (r.output_fields.map Json.str)))] := by
  simp only [Api.ListGazettesRequest.buildParams, optChain, optEntry, List.append_assoc,
    List.singleton_append, List.cons_append, List.append_nil, List.nil_append]

theorem listGazetteAgendas_paramsChain (r : Api.ListGazetteAgendasRequest) :
    Api.ListGazetteAgendasRequest.buildParams r = optChain
      [(translateField "gazette_id", r.gazette_id.map Json.str),
       (translateField "volume", r.volume.map Json.num),
       (translateField "term", r.term.map Json.num),
       (translateField "meeting_date", r.meeting_date.map Json.str),
       ("page", some (Json.num r.page)),
       ("limit", some (Json.num r.limit)),
       ("output_fields", some (Json.arr (r.output_fields.map Json.str)))] := by
  simp only [Api.ListGazetteAgendasRequest.buildParams, optChain, optEntry,
    List.append_assoc, List.singleton_append, List.cons_append, List.append_nil,
    List.nil_append]

theorem listInterpellations_paramsChain (r : Api.ListInterpellationsRequest) :
    Api.ListInterpellationsRequest.buildParams r = optChain
      [(translateField "interpellation_member", r.interpellation_member.map Json.str),
       (translateField "term", r.term.map Json.num),
       (translateField "session", r.session.map Json.num),
       (translateField "meeting_code", r.meeting_code.map Json.str),
       ("page", some (Json.num r.page)),
       ("limit", some (Json.num r.limit)),
       ("output_fields", some (Json.arr (r.output_fields.map Json.str)))] := by
  simp only [Api.ListInterpellationsRequest.buildParams, optChain, optEntry,
    List.append_assoc, List.singleton_append, List.cons_append, List.append_nil,
    List.nil_append]

theorem listIvods_paramsChain (r : Api.ListIvodsRequest) :
    Api.ListIvodsRequest.buildParams r = optChain
      [(translateField "term", r.term.map Json.num),
       (translateField "session", r.session.map Json.num),
       (translateField "meeting_code", r.meeting_code.map Json.str),
       (translateField "member_name", r.member_name.map Json.str),
       (translateField "committee_code", r.committee_code.map Json.num),
       (translateField "meeting_code_data", r.meeting_code_data.map Json.str),
       (translateField "date", r.date.map Json.str),
       (translateField "video_type", r.video_type.map Json.str),
       ("page", some (Json.num r.page)),
       ("limit", some (Json.num r.limit)),
       ("output_fields", some (Json.arr (r.output_fields.map Json.str)))] := by
  simp only [Api.ListIvodsRequest.buildParams, optChain, optEntry, List.append_assoc,
    List.singleton_append, List.cons_append, List.append_nil, List.nil_append]

theorem apiBillMeets_paramsChain (r : Api.GetBillMeetsRequest) :
    Api.GetBillMeetsRequest.buildParams r = optChain
      [(translateField "term", r.term.map Json.num),
       (translateField "session", r.session.map Json.num),
       (translateField "meeting_type", r.meeting_type.map Json.str),
       (translateField "date", r.date.map Json.str),
       ("page", some (Json.num r.page)),
       ("limit", some (Json.num r.limit))] := by
  simp only [Api.GetBillMeetsRequest.buildParams, optChain, optEntry, List.append_assoc,
    List.singleton_append, List.cons_append, List.append_nil, List.nil_append]

theorem modelsSearchBills_paramsChain (r : Models.SearchBillsRequest) :
    Models.SearchBillsRequest.build_params r = optChain
      [("term", r.term.map Json.num),
       ("session", r.session.map Json.num),
       ("bill_category", r.bill_category.map Json.str),
       ("proposer", r.proposer.map Json.str),
       ("cosigner", r.cosigner.map Json.str),
       ("bill_status", r.bill_status.map Json.str),
       ("proposal_source", r.proposal_source.map Json.str),
       ("bill_no", r.bill_no.map Json.str),
       ("proposal_date_start", r.proposal_date_start.map Json.str),
       ("proposal_date_end", r.proposal_date_end.map Json.str),
       ("page", some (Json.num r.page)),
       ("limit", some (Json.num r.limit))] := by
  simp only [Models.SearchBillsRequest.build_params, optChain, optEntry,
    List.append_assoc, List.singleton_append, List.cons_append, List.append_nil,
    List.nil_append]

theorem modelsBillMeets_paramsChain (r : Models.GetBillMeetsRequest) :
    Models.GetBillMeetsRequest.build_params r = optChain
      [("page", some (Json.num r.page)),
       ("limit", some (Json.num r.limit)),
       ("term", r.term.map fun n => Json.str (toString n)),
       ("session", r.session.map fun n => Json.str (toString n)),
       ("meeting_type", r.meeting_type.map Json.str),
       ("date", r.date.map Json.str)] := by
  simp only [Models.GetBillMeetsRequest.build_params, optChain, optEntry,
    List.append_assoc, List.singleton_append, List.cons_append, List.append_nil,
    List.nil_append]

theorem lyTypesSearchBill_paramsChain (r : LyTypes.SearchBillRequest) :
    LyTypes.SearchBillRequest.buildParams r = optChain
      [("屆", r.session.map Json.num),
       ("會期", r.term.map Json.num),
       ("議案流程.狀態", r.bill_flow_status.map Json.str),
       ("議案類別", r.bill_type.map Json.str),
       ("提案人", r.proposer.map Json.str),
       ("連署人", r.co_proposer.map Json.str),
       ("法律編號", r.law_number.map Json.str),
       ("議案狀態", r.bill_status.map Json.str),
       ("會議代碼", r.meeting_code.map Json.str),
       ("提案來源", r.proposal_source.map Json.str),
       ("議案編號", r.bill_number.map Json.str),
       ("提案編號", r.proposal_number.map Json.str),
       ("字號", r.reference_number.map Json.str),
       ("法條編號", r.article_number.map Json.str),
       ("提案日期", r.proposal_date.map Json.str),
       ("page", some (Json.num r.page)),
       ("limit", some (Json.num r.limit)),
       ("output_fields", some (Json.arr (r.output_fields.map Json.str)))] := by
  simp only [LyTypes.SearchBillRequest.buildParams, optChain, optEntry,
    List.append_assoc, List.singleton_append, List.cons_append, List.append_nil,
    List.nil_append]

theorem mtSearchBills_paramsChain (term session : Option Int)
    (bill_category proposer cosigner bill_status proposal_source
      bill_no : Option String) (page limit : Int) :
    MT.search_bills_params term session bill_category proposer cosigner
        bill_status proposal_source bill_no page limit = optChain
      [("page", some (Json.num page)),
       ("limit", some (Json.num limit)),
       ("屆", term.map Json.num),
       ("會期", session.map Json.num),
       ("議案類別", strTruthy bill_category),
       ("提案人", strTruthy proposer),
       ("連署人", strTruthy cosigner),
       ("議案狀態", strTruthy bill_status),
       ("提案來源", strTruthy proposal_source),
       ("議案編號", strTruthy bill_no)] := by
  simp only [MT.search_bills_params, strTruthyEntry_eq, optChain, optEntry,
    List.append_assoc, List.singleton_append, List.cons_append, List.append_nil,
    List.nil_append]

theorem mtBillMeets_paramsChain (term session : Option Int)
    (meeting_type date : Option String) (page limit : Int) :
    MT.get_bill_meets_params term session meeting_type date page limit = optChain
      [("page", some (Json.num page)),
       ("limit", some (Json.num limit)),
       ("屆", term.map Json.num),
       ("會期", session.map Json.num),
       ("會議種類", strTruthy meeting_type),
       ("日期", strTruthy date)] := by
  simp only [MT.get_bill_meets_params, strTruthyEntry_eq, optChain, optEntry,
    List.append_assoc, List.singleton_append, List.cons_append, List.append_nil,
    List.nil_append]

/-- C3 counterexample: in `api.py ListBillRequest` with every optional
field left unset, the built query-parameter mapping still contains the key
`output_fields` (with an empty-list value): `exclude_none=True` drops only
`None`, not the empty list, so an unset `output_fields` is not dropped. -/
theorem c3_counterexample :
    (Api.ListBillRequest.buildParams {}).lookup "output_fields" =
      some (Json.arr []) := by
  rfl

/-- C3 (amended): in the `api.py` request models, every `None`-defaulted
optional filter left unset contributes no key to the built mapping, and a
set filter appears exactly under its translated key; however the
list-valued `output_fields` field (default empty list) is never dropped —
its key is always present, with an empty-list value when unset.  The
legacy `models.py SearchBillsRequest._build_params` drops `None` fields
but performs no renaming: remaining keys are the untranslated field
names, and no translated key ever appears there. -/
theorem c3_unset_fields_dropped (r : Api.ListBillRequest)
    (s : Models.SearchBillsRequest) :
    ((Api.ListBillRequest.buildParams r).lookup "屆" = r.term.map Json.num) ∧
    ((Api.ListBillRequest.buildParams r).lookup "會期" = r.session.map Json.num) ∧
    ((Api.ListBillRequest.buildParams r).lookup "議案流程.狀態" =
      r.bill_flow_status.map Json.str) ∧
    ((Api.ListBillRequest.buildParams r).lookup "議案類別" = r.bill_type.map Json.str) ∧
    ((Api.ListBillRequest.buildParams r).lookup "提案人" = r.proposer.map Json.str) ∧
    ((Api.ListBillRequest.buildParams r).lookup "連署人" = r.co_proposer.map Json.str) ∧
    ((Api.ListBillRequest.buildParams r).lookup "法律編號" = r.law_number.map Json.str) ∧
    ((Api.ListBillRequest.buildParams r).lookup "議案狀態" = r.bill_status.map Json.str) ∧
    ((Api.ListBillRequest.buildParams r).lookup "會議代碼" = r.meeting_code.map Json.str) ∧
    ((Api.ListBillRequest.buildParams r).lookup "提案來源" =
      r.proposal_source.map Json.str) ∧
    ((Api.ListBillRequest.buildParams r).lookup "議案編號" = r.bill_number.map Json.str) ∧
    ((Api.ListBillRequest.buildParams r).lookup "提案編號" =
      r.proposal_number.map Json.str) ∧
    ((Api.ListBillRequest.buildParams r).lookup "字號" =
      r.reference_number.map Json.str) ∧
    ((Api.ListBillRequest.buildParams r).lookup "法條編號" =
      r.article_number.map Json.str) ∧
    ((Api.ListBillRequest.buildParams r).lookup "提案日期" =
      r.proposal_date.map Json.str) ∧
    ((Api.ListBillRequest.buildParams r).lookup "output_fields" =
      some (Json.arr (r.output_fields.map Json.str))) ∧
    ((Models.SearchBillsRequest.build_params s).lookup "term" = s.term.map Json.num) ∧
    ((Models.SearchBillsRequest.build_params s).lookup "session" =
      s.session.map Json.num) ∧
    ((Models.SearchBillsRequest.build_params s).lookup "bill_category" =
      s.bill_category.map Json.str) ∧
    ((Models.SearchBillsRequest.build_params s).lookup "proposer" =
      s.proposer.map Json.str) ∧
    ((Models.SearchBillsRequest.build_params s).lookup "cosigner" =
      s.cosigner.map Json.str) ∧
    ((Models.SearchBillsRequest.build_params s).lookup "bill_status" =
      s.bill_status.map Json.str) ∧
    ((Models.SearchBillsRequest.build_params s).lookup "proposal_source" =
      s.proposal_source.map Json.str) ∧
    ((Models.SearchBillsRequest.build_params s).lookup "bill_no" =
      s.bill_no.map Json.str) ∧
    ((Models.SearchBillsRequest.build_params s).lookup "proposal_date_start" =
      s.proposal_date_start.map Json.str) ∧
    ((Models.SearchBillsRequest.build_params s).lookup "proposal_date_end" =
      s.proposal_date_end.map Json.str) ∧
    ((Models.SearchBillsRequest.build_params s).lookup "屆" = none) ∧
    ((Models.SearchBillsRequest.build_params s).lookup "議案類別" = none) := by
  refine ⟨?_, ?_, ?_, ?_, ?_, ?_, ?_, ?_, ?_, ?_, ?_, ?_, ?_, ?_, ?_, ?_,
    ?_, ?_, ?_, ?_, ?_, ?_, ?_, ?_, ?_, ?_, ?_, ?_⟩ <;>
    simp [listBill_paramsChain, modelsSearchBills_paramsChain, translateField_vals,
      lookup_optChain, orElse_none_right]

/-- C4: for every listing operation (list bills, search bills, bill meets,
related bills, committees, gazettes, gazette agendas, interpellations,
ivods), the built query-parameter mapping always contains the keys `page`
and `limit` — whatever the optional filters — and the declared defaults
are `page = 1` and `limit = 20`. -/
theorem c4_pagination_always_present
    (rb : Api.ListBillRequest) (rc : Api.ListCommitteesRequest)
    (rg : Api.ListGazettesRequest) (ra : Api.ListGazetteAgendasRequest)
    (ri : Api.ListInterpellationsRequest) (rv : Api.ListIvodsRequest)
    (rm : Api.GetBillMeetsRequest) (rr : Api.GetBillRelatedBillsRequest)
    (ms : Models.SearchBillsRequest) (mm : Models.GetBillMeetsRequest)
    (mr : Models.GetBillRelatedBillsRequest)
    (term session : Option Int)
    (bill_category proposer cosigner bill_status proposal_source bill_no
      meeting_type date : Option String) (page limit : Int) :
    ((Api.ListBillRequest.buildParams rb).lookup "page" = some (Json.num rb.page)) ∧
    ((Api.ListBillRequest.buildParams rb).lookup "limit" = some (Json.num rb.limit)) ∧
    ((Api.ListCommitteesRequest.buildParams rc).lookup "page" = some (Json.num rc.page)) ∧
    ((Api.ListCommitteesRequest.buildParams rc).lookup "limit" = some (Json.num rc.limit)) ∧
    ((Api.ListGazettesRequest.buildParams rg).lookup "page" = some (Json.num rg.page)) ∧
    ((Api.ListGazettesRequest.buildParams rg).lookup "limit" = some (Json.num rg.limit)) ∧
    ((Api.ListGazetteAgendasRequest.buildParams ra).lookup "page" =
      some (Json.num ra.page)) ∧
    ((Api.ListGazetteAgendasRequest.buildParams ra).lookup "limit" =
      some (Json.num ra.limit)) ∧
    ((Api.ListInterpellationsRequest.buildParams ri).lookup "page" =
      some (Json.num ri.page)) ∧
    ((Api.ListInterpellationsRequest.buildParams ri).lookup "limit" =
      some (Json.num ri.limit)) ∧
    ((Api.ListIvodsRequest.buildParams rv).lookup "page" = some (Json.num rv.page)) ∧
    ((Api.ListIvodsRequest.buildParams rv).lookup "limit" = some (Json.num rv.limit)) ∧
    ((Api.GetBillMeetsRequest.buildParams rm).lookup "page" = some (Json.num rm.page)) ∧
    ((Api.GetBillMeetsRequest.buildParams rm).lookup "limit" = some (Json.num rm.limit)) ∧
    ((Api.GetBillRelatedBillsRequest.buildParams rr).lookup "page" =
      some (Json.num rr.page)) ∧
    ((Api.GetBillRelatedBillsRequest.buildParams rr).lookup "limit" =
      some (Json.num rr.limit)) ∧
    ((Models.SearchBillsRequest.build_params ms).lookup "page" =
      some (Json.num ms.page)) ∧
    ((Models.SearchBillsRequest.build_params ms).lookup "limit" =
      some (Json.num ms.limit)) ∧
    ((Models.GetBillMeetsRequest.build_params mm).lookup "page" =
      some (Json.num mm.page)) ∧
    ((Models.GetBillMeetsRequest.build_params mm).lookup "limit" =
      some (Json.num mm.limit)) ∧
    ((Models.GetBillRelatedBillsRequest.build_params mr).lookup "page" =
      some (Json.num mr.page)) ∧
    ((Models.GetBillRelatedBillsRequest.build_params mr).lookup "limit" =
      some (Json.num mr.limit)) ∧
    ((MT.search_bills_params term session bill_category proposer cosigner
        bill_status proposal_source bill_no page limit).lookup "page" =
      some (Json.num page)) ∧
    ((MT.search_bills_params term session bill_category proposer cosigner
        bill_status proposal_source bill_no page limit).lookup "limit" =
      some (Json.num limit)) ∧
    ((MT.get_bill_meets_params term session meeting_type date page limit).lookup
        "page" = some (Json.num page)) ∧
    ((MT.get_bill_meets_params term session meeting_type date page limit).lookup
        "limit" = some (Json.num limit)) ∧
    (({} : Api.ListBillRequest).page = 1 ∧ ({} : Api.ListBillRequest).limit = 20) ∧
    (({} : Models.SearchBillsRequest).page = 1 ∧
      ({} : Models.SearchBillsRequest).limit = 20) ∧
    ((Models.GetBillMeetsRequest.mk "b" none none none none 1 20).page = 1 ∧
      (Models.GetBillMeetsRequest.mk "b" none none none none 1 20).limit = 20) := by
  refine ⟨?_, ?_, ?_, ?_, ?_, ?_, ?_, ?_, ?_, ?_, ?_, ?_, ?_, ?_, ?_, ?_, ?_, ?_,
    ?_, ?_, ?_, ?_, ?_, ?_, ?_, ?_, ⟨rfl, rfl⟩, ⟨rfl, rfl⟩, ⟨rfl, rfl⟩⟩ <;>
    simp [listBill_paramsChain, listCommittees_paramsChain, listGazettes_paramsChain,
          listGazetteAgendas_paramsChain, listInterpellations_paramsChain,
          listIvods_paramsChain, apiBillMeets_paramsChain, modelsSearchBills_paramsChain,
          modelsBillMeets_paramsChain, mtSearchBills_paramsChain, mtBillMeets_paramsChain,
          Api.GetBillRelatedBillsRequest.buildParams,
          Models.GetBillRelatedBillsRequest.build_params,
          translateField_vals, lookup_optChain, orElse_none_right, List.lookup]

/-- C10: `types.py SearchBillRequest` serializes `session` under the
external key 屆 and `term` under 會期 — the reverse of the other request
variants (`mcpservertemplate` `search_bills`, `api.py ListBillRequest`,
and the `models.py Bill` aliases), which put `term` under 屆 and `session`
under 會期.  Consequently a request built from that model with `term` set
sends the `term` value under the key the other variants use for
`session`, and vice versa. -/
theorem c10_types_term_session_swapped (r : LyTypes.SearchBillRequest)
    (b : Models.Bill) (rb : Api.ListBillRequest) (term session : Option Int)
    (bill_category proposer cosigner bill_status proposal_source
      bill_no : Option String) (page limit : Int) :
    ((LyTypes.SearchBillRequest.buildParams r).lookup "會期" = r.term.map Json.num) ∧
    ((LyTypes.SearchBillRequest.buildParams r).lookup "屆" = r.session.map Json.num) ∧
    ((MT.search_bills_params term session bill_category proposer cosigner
        bill_status proposal_source bill_no page limit).lookup "屆" =
      term.map Json.num) ∧
    ((MT.search_bills_params term session bill_category proposer cosigner
        bill_status proposal_source bill_no page limit).lookup "會期" =
      session.map Json.num) ∧
    ((Api.ListBillRequest.buildParams rb).lookup "屆" = rb.term.map Json.num) ∧
    ((Api.ListBillRequest.buildParams rb).lookup "會期" = rb.session.map Json.num) ∧
    ((Models.Bill.dump b).objGet "屆" = some (Models.optJson Json.num b.term)) ∧
    ((Models.Bill.dump b).objGet "會期" = some (Models.optJson Json.num b.session)) := by
  refine ⟨?_, ?_, ?_, ?_, ?_, ?_, ?_, ?_⟩
  · simp [lyTypesSearchBill_paramsChain, lookup_optChain, orElse_none_right]
  · simp [lyTypesSearchBill_paramsChain, lookup_optChain, orElse_none_right]
  · simp [mtSearchBills_paramsChain, lookup_optChain, orElse_none_right]
  · simp [mtSearchBills_paramsChain, lookup_optChain, orElse_none_right]
  · simp [listBill_paramsChain, translateField_vals, lookup_optChain, orElse_none_right]
  · simp [listBill_paramsChain, translateField_vals, lookup_optChain, orElse_none_right]
  · simp [Models.Bill.dump, Json.objGet, List.lookup]
  · simp [Models.Bill.dump, Json.objGet, List.lookup]

/-- C1: every registered tool endpoint catches every exception raised while
building or performing the upstream request and returns a failure-marked
message string — it never propagates the exception (each tool is a total
function into `String`).  This covers `get_stat`, `list_bills`, `get_bill`,
`get_bill_related_bills`, `get_bill_meets` and `get_bill_doc_html` from
`server.py`, and the 404 case reached through the `api_client` pipeline
for the resource-identifier lookup `bill_no = "invalid_bill_number"`. -/
theorem c1_tool_errors_become_strings :
    ∀ (e : PyExn) (r : Api.ListBillRequest) (bill_no : String)
      (term session : Option Int) (meeting_type date : Option String)
      (page limit : Int) (m : String),
      LyServer.get_stat (.error e) = "Failed to get statistics, got: " ++ e.str ∧
      LyServer.list_bills r (.error e) = "Failed to list bills, got: " ++ e.str ∧
      LyServer.get_bill bill_no (.error e) =
        "Failed to get bill detail, got: " ++ e.str ∧
      LyServer.get_bill_related_bills bill_no page limit (.error e) =
        "Failed to get bill related bills, got: " ++ e.str ∧
      LyServer.get_bill_meets bill_no term session meeting_type date page limit
          (.error e) = "Failed to get bill meets, got: " ++ e.str ∧
      LyServer.get_bill_doc_html bill_no (.error e) =
        "Failed to get bill doc html, got: " ++ e.str ∧
      BillTools.get_bill_detail "invalid_bill_number"
          (.error (.httpStatusError 404 m)) =
        "❌ API 請求失敗：API 請求失敗：HTTP 404" := by
  intro e r bill_no term session meeting_type date page limit m
  refine ⟨rfl, rfl, rfl, rfl, rfl, rfl, ?_⟩
  have hc1 : ¬ ("/bills/" ++ "invalid_bill_number" : String) = "/bills" := by decide
  have hc2 : (pyStartsWith ("/bills/" ++ "invalid_bill_number") "/bills/" &&
      pyEndsWith ("/bills/" ++ "invalid_bill_number") "/related") = false := by decide
  have hc3 : (pyStartsWith ("/bills/" ++ "invalid_bill_number") "/bills/" &&
      pyEndsWith ("/bills/" ++ "invalid_bill_number") "/meets") = false := by decide
  have hc4 : (pyStartsWith ("/bills/" ++ "invalid_bill_number") "/bills/" &&
      !((("/bills/" ++ "invalid_bill_number" : String).data.drop 7).contains '/')) =
      true := by decide
  have hsplit : (pySplit ("/bills/" ++ "invalid_bill_number") '/').getD 2 "" =
      "invalid_bill_number" := by decide
  simp only [BillTools.get_bill_detail, ApiClient.make_api_request, hc1, hc2, hc3, hc4,
    hsplit, if_false, if_true, Bool.false_eq_true, Bool.true_eq_false, ite_false,
    ite_true, reduceIte]
  rfl

/-- C2 counterexample: HTTP 502 is a 5xx status, but `_handle_http_error`
maps it to the generic `API 請求失敗：HTTP 502` message, not the
upstream-service-error message the claim promises for every 5xx (the code
compares the status with `== 500` only). -/
theorem c2_counterexample :
    (ApiClient.handle_http_error 502).message = "API 請求失敗：HTTP 502" ∧
    (ApiClient.handle_http_error 502).message ≠
      "伺服器內部錯誤 (500)。API 服務可能暫時不可用。" := by
  exact ⟨rfl, by decide⟩

/-- C2 (amended): `_handle_http_error` maps a status error to a failed
envelope whose message depends only on the status code — 404 and 429 get
their dedicated messages, exactly HTTP 500 (not every 5xx) gets the
upstream-service-error message, and every other non-2xx status (the
remaining 5xx statuses included) gets the generic
`API 請求失敗：HTTP {code}` message; the dedicated `TimeoutException` and
`ConnectError` branches produce their own distinct messages; the embedding
is a single function of one outcome, so no retry is performed. -/
theorem c2_http_error_mapping (code : Nat)
    (h404 : code ≠ 404) (h429 : code ≠ 429) (h500 : code ≠ 500) :
    ((ApiClient.handle_http_error code).message =
      "API 請求失敗：HTTP " ++ toString code) ∧
    ((ApiClient.handle_http_error code).success = false) ∧
    ((ApiClient.handle_http_error code).data = Json.null) ∧
    ((ApiClient.handle_http_error 404).message =
      "查無資料：所查詢的資源不存在 (404)。請檢查參數是否正確。") ∧
    ((ApiClient.handle_http_error 429).message = "請求過於頻繁 (429)。請稍後再試。") ∧
    ((ApiClient.handle_http_error 500).message =
      "伺服器內部錯誤 (500)。API 服務可能暫時不可用。") ∧
    (∀ m, ApiClient.exceptChain (.timeoutException m) =
      { success := false, message := ApiClient.timeoutMessage, data := Json.null }) ∧
    (∀ m, ApiClient.exceptChain (.connectError m) =
      { success := false, message := ApiClient.connectErrorMessage, data := Json.null }) ∧
    ApiClient.timeoutMessage ≠ ApiClient.connectErrorMessage := by
  refine ⟨?_, rfl, rfl, rfl, rfl, rfl, fun m => rfl, fun m => rfl, by decide⟩
  simp [ApiClient.handle_http_error, h404, h429, h500]

/-- C2 witness: the amended mapping instantiated at status 502. -/
theorem c2_http_error_mapping_witness :
    ((502 : Nat) ≠ 404 ∧ (502 : Nat) ≠ 429 ∧ (502 : Nat) ≠ 500) ∧
    ((ApiClient.handle_http_error 502).message =
      "API 請求失敗：HTTP " ++ toString (502 : Nat)) ∧
    ((ApiClient.handle_http_error 502).success = false) ∧
    ((ApiClient.handle_http_error 502).data = Json.null) ∧
    ((ApiClient.handle_http_error 404).message =
      "查無資料：所查詢的資源不存在 (404)。請檢查參數是否正確。") ∧
    ((ApiClient.handle_http_error 429).message = "請求過於頻繁 (429)。請稍後再試。") ∧
    ((ApiClient.handle_http_error 500).message =
      "伺服器內部錯誤 (500)。API 服務可能暫時不可用。") ∧
    (∀ m, ApiClient.exceptChain (.timeoutException m) =
      { success := false, message := ApiClient.timeoutMessage, data := Json.null }) ∧
    (∀ m, ApiClient.exceptChain (.connectError m) =
      { success := false, message := ApiClient.connectErrorMessage, data := Json.null }) ∧
    ApiClient.timeoutMessage ≠ ApiClient.connectErrorMessage :=
  ⟨⟨by decide, by decide, by decide⟩,
    c2_http_error_mapping 502 (by decide) (by decide) (by decide)⟩

/-- C5: the response normalizer — an object payload containing the key
`data` yields the value under `data` as the result set; a bare list is
used directly; every other payload (objects without `data` included)
yields the empty list. -/
theorem c5_normalizer (fields : List (String × Json)) (d : Json)
    (h : fields.lookup "data" = some d) :
    Models.extractResultSet (.obj fields) = d ∧
    (∀ xs : List Json, Models.extractResultSet (.arr xs) = .arr xs) ∧
    (∀ fs : List (String × Json), fs.lookup "data" = none →
        Models.extractResultSet (.obj fs) = .arr []) ∧
    Models.extractResultSet .null = .arr [] ∧
    (∀ b, Models.extractResultSet (.bool b) = .arr []) ∧
    (∀ n, Models.extractResultSet (.num n) = .arr []) ∧
    (∀ s, Models.extractResultSet (.str s) = .arr []) := by
  refine ⟨?_, fun xs => rfl, ?_, rfl, fun b => rfl, fun n => rfl, fun s => rfl⟩
  · simp [Models.extractResultSet, h]
  · intro fs hf
    simp [Models.extractResultSet, hf]

/-- C5 witness: the normalizer cases instantiated at the payload
`{"data": 7}`. -/
theorem c5_normalizer_witness :
    ([("data", Json.num 7)] : List (String × Json)).lookup "data" =
        some (Json.num 7) ∧
    Models.extractResultSet (.obj [("data", Json.num 7)]) = Json.num 7 ∧
    (∀ xs : List Json, Models.extractResultSet (.arr xs) = .arr xs) ∧
    (∀ fs : List (String × Json), fs.lookup "data" = none →
        Models.extractResultSet (.obj fs) = .arr []) ∧
    Models.extractResultSet .null = .arr [] ∧
    (∀ b, Models.extractResultSet (.bool b) = .arr []) ∧
    (∀ n, Models.extractResultSet (.num n) = .arr []) ∧
    (∀ s, Models.extractResultSet (.str s) = .arr []) :=
  ⟨rfl, c5_normalizer [("data", Json.num 7)] (Json.num 7) rfl⟩

theorem searchBills_processPayload_total (r : Models.SearchBillsRequest)
    (payload : Json) (resp : Models.SearchBillsResponse)
    (h : Models.SearchBillsRequest.processPayload r payload = .ok resp) :
    resp.total = some (resp.bills.length : Int) := by
  unfold Models.SearchBillsRequest.processPayload at h
  cases hp : Models.pyIter (Models.extractResultSet payload) with
  | error m => simp [hp, Except.bind] at h
  | ok items =>
      cases hb : Models.mapMExcept Models.Bill.validate items with
      | error m => simp [hp, hb, Except.bind] at h
      | ok bills =>
          simp [hp, hb, Except.bind] at h
          subst h
          rfl

theorem relatedBills_processPayload_total (r : Models.GetBillRelatedBillsRequest)
    (payload : Json) (resp : Models.BillRelatedBillsResponse)
    (h : Models.GetBillRelatedBillsRequest.processPayload r payload = .ok resp) :
    resp.total = some (resp.related_bills.length : Int) := by
  unfold Models.GetBillRelatedBillsRequest.processPayload at h
  cases hp : Models.pyIter (Models.extractResultSet payload) with
  | error m => simp [hp, Except.bind] at h
  | ok items =>
      cases hb : Models.mapMExcept Models.RelatedBill.validate items with
      | error m => simp [hp, hb, Except.bind] at h
      | ok related =>
          simp [hp, hb, Except.bind] at h
          subst h
          rfl

theorem billMeets_processPayload_total (r : Models.GetBillMeetsRequest)
    (payload : Json) (resp : Models.BillMeetsResponse)
    (h : Models.GetBillMeetsRequest.processPayload r payload = .ok resp) :
    resp.total = some (resp.meetings.length : Int) := by
  unfold Models.GetBillMeetsRequest.processPayload at h
  cases hp : Models.pyIter (Models.extractResultSet payload) with
  | error m => simp [hp, Except.bind] at h
  | ok items =>
      cases hb : Models.mapMExcept Models.Meeting.validate items with
      | error m => simp [hp, hb, Except.bind] at h
      | ok meetings =>
          simp [hp, hb, Except.bind] at h
          subst h
          rfl

theorem searchBills_run_total (r : Models.SearchBillsRequest)
    (out : Except PyExn Json) (resp : Models.SearchBillsResponse)
    (h : Models.SearchBillsRequest.run r out = .ok resp) :
    resp.total = some (resp.bills.length : Int) := by
  unfold Models.SearchBillsRequest.run at h
  cases out with
  | error e => cases e <;> simp at h
  | ok data =>
      cases hp : Models.SearchBillsRequest.processPayload r data with
      | error m => simp [hp] at h
      | ok resp' =>
          simp [hp] at h
          subst h
          exact searchBills_processPayload_total r data resp' hp

/-- C6: for every successful listing response built by the structured
request models (search bills, related bills, bill meets), `total` equals
the number of items actually parsed into the current page's result list —
and the `api_client.search_bills` envelope forwards exactly that count for
the data list it carries. -/
theorem c6_total_is_page_count (sr : Models.SearchBillsRequest)
    (rr : Models.GetBillRelatedBillsRequest) (mr : Models.GetBillMeetsRequest)
    (payload₁ payload₂ payload₃ : Json)
    (sresp : Models.SearchBillsResponse) (rresp : Models.BillRelatedBillsResponse)
    (mresp : Models.BillMeetsResponse) (out : Except PyExn Json)
    (h1 : Models.SearchBillsRequest.processPayload sr payload₁ = .ok sresp)
    (h2 : Models.GetBillRelatedBillsRequest.processPayload rr payload₂ = .ok rresp)
    (h3 : Models.GetBillMeetsRequest.processPayload mr payload₃ = .ok mresp)
    (h4 : (ApiClient.search_bills sr out).success = true) :
    sresp.total = some (sresp.bills.length : Int) ∧
    rresp.total = some (rresp.related_bills.length : Int) ∧
    mresp.total = some (mresp.meetings.length : Int) ∧
    ∃ xs, (ApiClient.search_bills sr out).data = Json.arr xs ∧
      (ApiClient.search_bills sr out).total = some (xs.length : Int) := by
  refine ⟨searchBills_processPayload_total sr payload₁ sresp h1,
    relatedBills_processPayload_total rr payload₂ rresp h2,
    billMeets_processPayload_total mr payload₃ mresp h3, ?_⟩
  cases hr : Models.SearchBillsRequest.run sr out with
  | error e => simp [ApiClient.search_bills, hr] at h4
  | ok resp =>
      have ht := searchBills_run_total sr out resp hr
      refine ⟨resp.bills.map Models.Bill.dump, ?_, ?_⟩
      · simp [ApiClient.search_bills, hr]
      · simp [ApiClient.search_bills, hr, ht, List.length_map]

/-- C6 witness: the three request models and the client envelope at
concrete payloads (two parsed bills, one related bill, zero meetings). -/
theorem c6_total_is_page_count_witness :
    (Models.SearchBillsRequest.processPayload {}
        (Json.arr [Json.obj [], Json.obj []]) = .ok ⟨[{}, {}], some 2, 1, 20⟩) ∧
    (Models.GetBillRelatedBillsRequest.processPayload ⟨"b", 1, 20⟩
        (Json.obj [("data", Json.arr [Json.obj []])]) =
      .ok ⟨[{}], some 1, 1, 20, "b"⟩) ∧
    (Models.GetBillMeetsRequest.processPayload
        ⟨"b", none, none, none, none, 1, 20⟩ (Json.arr []) =
      .ok ⟨[], some 0, 1, 20, "b"⟩) ∧
    ((ApiClient.search_bills {} (.ok (Json.arr []))).success = true) ∧
    ((⟨[{}, {}], some 2, 1, 20⟩ : Models.SearchBillsResponse).total = some 2) ∧
    ((⟨[{}], some 1, 1, 20, "b"⟩ : Models.BillRelatedBillsResponse).total = some 1) ∧
    ((⟨[], some 0, 1, 20, "b"⟩ : Models.BillMeetsResponse).total = some 0) ∧
    (∃ xs, (ApiClient.search_bills {} (.ok (Json.arr []))).data = Json.arr xs ∧
      (ApiClient.search_bills {} (.ok (Json.arr []))).total =
        some (xs.length : Int)) := by
  have h := c6_total_is_page_count {} ⟨"b", 1, 20⟩ ⟨"b", none, none, none, none, 1, 20⟩
    (Json.arr [Json.obj [], Json.obj []]) (Json.obj [("data", Json.arr [Json.obj []])])
    (Json.arr []) ⟨[{}, {}], some 2, 1, 20⟩ ⟨[{}], some 1, 1, 20, "b"⟩
    ⟨[], some 0, 1, 20, "b"⟩ (.ok (Json.arr [])) rfl rfl rfl rfl
  exact ⟨rfl, rfl, rfl, rfl, h.1, h.2.1, h.2.2.1, h.2.2.2⟩

/-- C7: for the string-returning `get_bill_related_bills` tool, a
serialized result strictly longer than 20000 characters is replaced by its
first 15000 characters bracketed by an explicit truncation notice advising
pagination, while a result of at most 20000 characters is included
unmodified. -/
theorem c7_truncation (api_response : APIResponse) (bill_no : String)
    (page limit : Int) (h : api_response.success = true) :
    (20000 < (jsonDumps api_response.data).length →
      BillTools.get_bill_related_bills bill_no page limit api_response =
        "✅ " ++ api_response.message ++ "\n\n" ++
          "⚠️ 相關議案內容過大，僅顯示部分內容。建議使用分頁參數查詢。\n\n" ++
          (jsonDumps api_response.data).take 15000 ++ "\n\n...(內容過長，已截斷)") ∧
    ((jsonDumps api_response.data).length ≤ 20000 →
      BillTools.get_bill_related_bills bill_no page limit api_response =
        "✅ " ++ api_response.message ++ "\n\n" ++ jsonDumps api_response.data) := by
  constructor
  · intro hl
    simp [BillTools.get_bill_related_bills, h, hl]
  · intro hl
    have hn : ¬ 20000 < (jsonDumps api_response.data).length := by omega
    simp [BillTools.get_bill_related_bills, h, hn]

/-- C7 witness: the truncation dichotomy instantiated at a concrete
successful response. -/
theorem c7_truncation_witness :
    ({ success := true, message := "查詢成功" } : APIResponse).success = true ∧
    ((20000 <
        (jsonDumps ({ success := true, message := "查詢成功" } : APIResponse).data).length →
      BillTools.get_bill_related_bills "b" 1 20
          { success := true, message := "查詢成功" } =
        "✅ " ++ ({ success := true, message := "查詢成功" } : APIResponse).message ++
          "\n\n" ++
          "⚠️ 相關議案內容過大，僅顯示部分內容。建議使用分頁參數查詢。\n\n" ++
          (jsonDumps ({ success := true, message := "查詢成功" } : APIResponse).data).take
            15000 ++ "\n\n...(內容過長，已截斷)") ∧
    ((jsonDumps ({ success := true, message := "查詢成功" } : APIResponse).data).length ≤
        20000 →
      BillTools.get_bill_related_bills "b" 1 20
          { success := true, message := "查詢成功" } =
        "✅ " ++ ({ success := true, message := "查詢成功" } : APIResponse).message ++
          "\n\n" ++
          jsonDumps ({ success := true, message := "查詢成功" } : APIResponse).data)) :=
  ⟨rfl, c7_truncation { success := true, message := "查詢成功" } "b" 1 20 rfl⟩

/-- C8: for `get_bill_doc_html`, a successful upstream response whose data
is `null`, a whitespace-only string, an empty dict, or an empty list gets
a warning-marked "no content available" notice, never the failure-marked
`❌` format. -/
theorem c8_doc_html_empty_content (bill_no : String) (api_response : APIResponse)
    (h : api_response.success = true)
    (hempty : api_response.data = Json.null ∨
      (∃ s, api_response.data = Json.str s ∧ stripIsEmpty s = true) ∨
      api_response.data = Json.obj [] ∨ api_response.data = Json.arr []) :
    (BillTools.get_bill_doc_html bill_no api_response =
        BillTools.docHtmlNoContentNotice ∨
      BillTools.get_bill_doc_html bill_no api_response =
        BillTools.docHtmlEmptyDataNotice) ∧
    pyStartsWith (BillTools.get_bill_doc_html bill_no api_response) "⚠️" = true ∧
    pyStartsWith (BillTools.get_bill_doc_html bill_no api_response) "❌" = false := by
  have hres : BillTools.get_bill_doc_html bill_no api_response =
      BillTools.docHtmlNoContentNotice ∨
      BillTools.get_bill_doc_html bill_no api_response =
        BillTools.docHtmlEmptyDataNotice := by
    rcases hempty with hd | ⟨s, hd, hs⟩ | hd | hd
    · simp [BillTools.get_bill_doc_html, h, hd]
    · simp [BillTools.get_bill_doc_html, h, hd, hs]
    · simp [BillTools.get_bill_doc_html, h, hd]
    · simp [BillTools.get_bill_doc_html, h, hd]
  refine ⟨hres, ?_, ?_⟩ <;> rcases hres with hres | hres <;> rw [hres] <;> decide

/-- C8 witness: the empty-content handling instantiated at a successful
response with `null` data. -/
theorem c8_doc_html_empty_content_witness :
    ({ success := true, message := "m" } : APIResponse).success = true ∧
    (({ success := true, message := "m" } : APIResponse).data = Json.null ∨
      (∃ s, ({ success := true, message := "m" } : APIResponse).data = Json.str s ∧
        stripIsEmpty s = true) ∨
      ({ success := true, message := "m" } : APIResponse).data = Json.obj [] ∨
      ({ success := true, message := "m" } : APIResponse).data = Json.arr []) ∧
    ((BillTools.get_bill_doc_html "b" { success := true, message := "m" } =
        BillTools.docHtmlNoContentNotice ∨
      BillTools.get_bill_doc_html "b" { success := true, message := "m" } =
        BillTools.docHtmlEmptyDataNotice) ∧
    pyStartsWith (BillTools.get_bill_doc_html "b" { success := true, message := "m" })
        "⚠️" = true ∧
    pyStartsWith (BillTools.get_bill_doc_html "b" { success := true, message := "m" })
        "❌" = false) :=
  ⟨rfl, Or.inl rfl,
    c8_doc_html_empty_content "b" { success := true, message := "m" } rfl (Or.inl rfl)⟩

/-- C9: every failed envelope constructed by the API client carries
`data = null` and a non-empty explanatory message — for `search_bills`,
`get_bill_detail`, `get_bill_related_bills`, `get_bill_meets`, the
`_handle_http_error` mapping, and the `make_api_request` dispatcher. -/
theorem c9_failure_envelope_invariant (sr : Models.SearchBillsRequest)
    (rr : Models.GetBillRelatedBillsRequest) (mr : Models.GetBillMeetsRequest)
    (bill_no endpoint : String) (page limit : Int) (code : Nat)
    (out : Except PyExn Json)
    (h1 : (ApiClient.search_bills sr out).success = false)
    (h2 : (ApiClient.get_bill_detail bill_no out).success = false)
    (h3 : (ApiClient.get_bill_related_bills rr out).success = false)
    (h4 : (ApiClient.get_bill_meets mr out).success = false)
    (h5 : (ApiClient.make_api_request endpoint sr page limit out).success = false) :
    ((ApiClient.search_bills sr out).data = Json.null ∧
      (ApiClient.search_bills sr out).message ≠ "") ∧
    ((ApiClient.get_bill_detail bill_no out).data = Json.null ∧
      (ApiClient.get_bill_detail bill_no out).message ≠ "") ∧
    ((ApiClient.get_bill_related_bills rr out).data = Json.null ∧
      (ApiClient.get_bill_related_bills rr out).message ≠ "") ∧
    ((ApiClient.get_bill_meets mr out).data = Json.null ∧
      (ApiClient.get_bill_meets mr out).message ≠ "") ∧
    ((ApiClient.handle_http_error code).success = false ∧
      (ApiClient.handle_http_error code).data = Json.null ∧
      (ApiClient.handle_http_error code).message ≠ "") ∧
    ((ApiClient.make_api_request endpoint sr page limit out).data = Json.null ∧
      (ApiClient.make_api_request endpoint sr page limit out).message ≠ "") := by
  have hec : ∀ e : PyExn, (ApiClient.exceptChain e).success = false ∧
      (ApiClient.exceptChain e).data = Json.null ∧
      (ApiClient.exceptChain e).message ≠ "" := by
    intro e
    cases e with
    | httpStatusError c m => exact handle_http_error_envelope c
    | timeoutException m =>
        exact ⟨rfl, rfl, show ApiClient.timeoutMessage ≠ "" by decide⟩
    | connectError m =>
        exact ⟨rfl, rfl, show ApiClient.connectErrorMessage ≠ "" by decide⟩
    | runtimeError m => exact ⟨rfl, rfl, append_ne_empty_left _ _ (by decide)⟩
    | otherExn m => exact ⟨rfl, rfl, append_ne_empty_left _ _ (by decide)⟩
  have hsb : ∀ (sr' : Models.SearchBillsRequest) (out' : Except PyExn Json),
      (ApiClient.search_bills sr' out').success = false →
      (ApiClient.search_bills sr' out').data = Json.null ∧
      (ApiClient.search_bills sr' out').message ≠ "" := by
    intro sr' out' hf
    cases hr : Models.SearchBillsRequest.run sr' out' with
    | ok resp => simp [ApiClient.search_bills, hr] at hf
    | error e =>
        constructor
        · simp [ApiClient.search_bills, hr]
        · simp only [ApiClient.search_bills, hr]
          exact append_ne_empty_left _ _ (by decide)
  have hdet : ∀ (b : String) (out' : Except PyExn Json),
      (ApiClient.get_bill_detail b out').success = false →
      (ApiClient.get_bill_detail b out').data = Json.null ∧
      (ApiClient.get_bill_detail b out').message ≠ "" := by
    intro b out' hf
    cases hr : Models.GetBillDetailRequest.run { bill_no := b } out' with
    | ok resp => simp [ApiClient.get_bill_detail, hr] at hf
    | error e =>
        constructor
        · simp [ApiClient.get_bill_detail, hr]
        · simp only [ApiClient.get_bill_detail, hr]
          exact append_ne_empty_left _ _ (by decide)
  have hrel : ∀ (rr' : Models.GetBillRelatedBillsRequest) (out' : Except PyExn Json),
      (ApiClient.get_bill_related_bills rr' out').success = false →
      (ApiClient.get_bill_related_bills rr' out').data = Json.null ∧
      (ApiClient.get_bill_related_bills rr' out').message ≠ "" := by
    intro rr' out' hf
    cases hr : Models.GetBillRelatedBillsRequest.run rr' out' with
    | ok resp => simp [ApiClient.get_bill_related_bills, hr] at hf
    | error e =>
        have := hec e
        constructor
        · simp only [ApiClient.get_bill_related_bills, hr]
          exact this.2.1
        · simp only [ApiClient.get_bill_related_bills, hr]
          exact this.2.2
  have hmeets : ∀ (mr' : Models.GetBillMeetsRequest) (out' : Except PyExn Json),
      (ApiClient.get_bill_meets mr' out').success = false →
      (ApiClient.get_bill_meets mr' out').data = Json.null ∧
      (ApiClient.get_bill_meets mr' out').message ≠ "" := by
    intro mr' out' hf
    cases hr : Models.GetBillMeetsRequest.run mr' out' with
    | ok resp => simp [ApiClient.get_bill_meets, hr] at hf
    | error e =>
        have := hec e
        constructor
        · simp only [ApiClient.get_bill_meets, hr]
          exact this.2.1
        · simp only [ApiClient.get_bill_meets, hr]
          exact this.2.2
  refine ⟨hsb sr out h1, hdet bill_no out h2, hrel rr out h3, hmeets mr out h4,
    handle_http_error_envelope code, ?_⟩
  unfold ApiClient.make_api_request at h5 ⊢
  split_ifs at h5 ⊢ with hb1 hb2 hb3 hb4
  · exact hsb _ _ h5
  · exact hrel _ _ h5
  · exact hmeets _ _ h5
  · exact hdet _ _ h5
  · exact ⟨rfl, append_ne_empty_left _ _ (by decide)⟩

/-- C9 witness: the invariant instantiated at a concrete failing outcome
(an unexpected exception), an unsupported endpoint, and status 503. -/
theorem c9_failure_envelope_invariant_witness :
    ((ApiClient.search_bills {} (.error (.otherExn "boom"))).success = false ∧
      (ApiClient.get_bill_detail "b" (.error (.otherExn "boom"))).success = false ∧
      (ApiClient.get_bill_related_bills ⟨"b", 1, 20⟩
          (.error (.otherExn "boom"))).success = false ∧
      (ApiClient.get_bill_meets ⟨"b", none, none, none, none, 1, 20⟩
          (.error (.otherExn "boom"))).success = false ∧
      (ApiClient.make_api_request "/nope" {} 1 20
          (.error (.otherExn "boom"))).success = false) ∧
    ((ApiClient.search_bills {} (.error (.otherExn "boom"))).data = Json.null ∧
      (ApiClient.search_bills {} (.error (.otherExn "boom"))).message ≠ "") ∧
    ((ApiClient.get_bill_detail "b" (.error (.otherExn "boom"))).data = Json.null ∧
      (ApiClient.get_bill_detail "b" (.error (.otherExn "boom"))).message ≠ "") ∧
    ((ApiClient.get_bill_related_bills ⟨"b", 1, 20⟩
        (.error (.otherExn "boom"))).data = Json.null ∧
      (ApiClient.get_bill_related_bills ⟨"b", 1, 20⟩
        (.error (.otherExn "boom"))).message ≠ "") ∧
    ((ApiClient.get_bill_meets ⟨"b", none, none, none, none, 1, 20⟩
        (.error (.otherExn "boom"))).data = Json.null ∧
      (ApiClient.get_bill_meets ⟨"b", none, none, none, none, 1, 20⟩
        (.error (.otherExn "boom"))).message ≠ "") ∧
    ((ApiClient.handle_http_error 503).success = false ∧
      (ApiClient.handle_http_error 503).data = Json.null ∧
      (ApiClient.handle_http_error 503).message ≠ "") ∧
    ((ApiClient.make_api_request "/nope" {} 1 20
        (.error (.otherExn "boom"))).data = Json.null ∧
      (ApiClient.make_api_request "/nope" {} 1 20
        (.error (.otherExn "boom"))).message ≠ "") := by
  have hd : (ApiClient.make_api_request "/nope" {} 1 20
      (.error (.otherExn "boom"))).success = false := by
    have hc1 : ¬ ("/nope" : String) = "/bills" := by decide
    have hc2 : pyStartsWith "/nope" "/bills/" = false := by decide
    simp only [ApiClient.make_api_request, hc1, hc2, Bool.false_and, if_false,
      Bool.false_eq_true, ite_false, reduceIte]
  exact ⟨⟨rfl, rfl, rfl, rfl, hd⟩,
    c9_failure_envelope_invariant {} ⟨"b", 1, 20⟩ ⟨"b", none, none, none, none, 1, 20⟩
      "b" "/nope" 1 20 503 (.error (.otherExn "boom")) rfl rfl rfl rfl hd⟩

